import Mathlib

/-!
# godot_box2d: the simulation synchronisation bridge

A shallow embedding of the parts of `scene/2d/box2d_physics_body.cpp` and
`scene/2d/box2d_world.h` that keep kernel bodies, contact manifolds and deferred
signals consistent with the scene tree, followed by theorems about them.

Conventions of the embedding:
* pointers are `Option Nat` (`none` is the null pointer, `some i` the object with identity `i`);
* `real_t` / `float` values are rationals, so arithmetic is exact;
* `int` values are integers (no operation here leaves the 32-bit range on the guarded paths);
* a C++ method that mutates `this` becomes a function returning the new state.
-/

namespace GodotBox2D

/-! ## Engine value types -/

/-- The engine's `Vector2`, with exact coordinates. -/
structure Vector2 where
  x : ℚ
  y : ℚ
deriving DecidableEq, Repr

instance : Inhabited Vector2 := ⟨⟨0, 0⟩⟩

instance : Neg Vector2 := ⟨fun v => ⟨-v.x, -v.y⟩⟩

instance : Add Vector2 := ⟨fun a b => ⟨a.x + b.x, a.y + b.y⟩⟩

/-- The engine's `Transform2D`: `x` and `y` are the basis columns `elements[0]` and
`elements[1]`, `origin` is `elements[2]`. -/
structure Transform2D where
  x : Vector2
  y : Vector2
  origin : Vector2
deriving DecidableEq, Repr

namespace Transform2D

/-- The default-constructed transform `Transform2D{}`: the identity. -/
def identity : Transform2D := ⟨⟨1, 0⟩, ⟨0, 1⟩, ⟨0, 0⟩⟩

instance : Inhabited Transform2D := ⟨identity⟩

/-- The engine's `tdotx`. -/
def tdotx (t : Transform2D) (v : Vector2) : ℚ := t.x.x * v.x + t.y.x * v.y

/-- The engine's `tdoty`. -/
def tdoty (t : Transform2D) (v : Vector2) : ℚ := t.x.y * v.x + t.y.y * v.y

/-- The engine's `basis_xform`. -/
def basis_xform (t : Transform2D) (v : Vector2) : Vector2 := ⟨t.tdotx v, t.tdoty v⟩

/-- The engine's `xform`. -/
def xform (t : Transform2D) (v : Vector2) : Vector2 := t.basis_xform v + t.origin

/-- The engine's `basis_determinant`. -/
def basis_determinant (t : Transform2D) : ℚ := t.x.x * t.y.y - t.x.y * t.y.x

/-- The engine's `operator*`: `a * b` applies `b` first, then `a`. -/
def mul (a b : Transform2D) : Transform2D :=
  { x := ⟨a.tdotx b.x, a.tdoty b.x⟩
    y := ⟨a.tdotx b.y, a.tdoty b.y⟩
    origin := a.xform b.origin }

instance : Mul Transform2D := ⟨mul⟩

/-- The engine's `affine_inverse`: swap the diagonal, scale by the inverse determinant,
and map the negated origin through the new basis. -/
def affine_inverse (t : Transform2D) : Transform2D :=
  let idet : ℚ := 1 / t.basis_determinant
  let b : Transform2D :=
    { x := ⟨t.y.y * idet, t.x.y * (-idet)⟩
      y := ⟨t.y.x * (-idet), t.x.x * idet⟩
      origin := t.origin }
  { b with origin := b.basis_xform (-t.origin) }

end Transform2D

/-! ## Scene nodes on a body's parent chain -/

/-- One ancestor reached by `get_parent()`: its identity and the result of
`Object::cast_to<CanvasItem>` on it (`some t` is a CanvasItem whose `get_transform()` is `t`). -/
structure Node where
  id : Nat
  canvas : Option Transform2D
deriving DecidableEq, Repr

/-- The loop of `get_box2dworld_transform` over the parent chain. The vector `transforms`
is kept with its back at the head of the list, so `push_back` is `::`. -/
def get_walk (world_node : Option Nat) : List Node → List Transform2D → List Transform2D
  | [], transforms => transforms
  | parent :: up, transforms =>
    if some parent.id = world_node then transforms
    else
      match parent.canvas with
      | some t => get_walk world_node up (t :: transforms)
      | none => get_walk world_node up transforms

/-- The loop of `set_box2dworld_transform` over the parent chain: as `get_walk`, pushing
the `affine_inverse` of every CanvasItem ancestor. -/
def set_walk (world_node : Option Nat) : List Node → List Transform2D → List Transform2D
  | [], transforms => transforms
  | parent :: up, transforms =>
    if some parent.id = world_node then transforms
    else
      match parent.canvas with
      | some t => set_walk world_node up (t.affine_inverse :: transforms)
      | none => set_walk world_node up transforms

/-- The draining loop `while (transforms.size() > 0) { r = r * transforms.back(); pop_back(); }`
on a vector whose back is the head of the list. -/
def fold_back : Transform2D → List Transform2D → Transform2D
  | returned, [] => returned
  | returned, back :: rest => fold_back (returned * back) rest


/-! ## Contact points -/

/-- The struct `Box2DContactPoint`; the defaults are its member initialisers. -/
structure Box2DContactPoint where
  id : Int := -1
  solves : Int := 0
  fixture_a : Option Nat := none
  fixture_b : Option Nat := none
  world_pos : Vector2 := ⟨0, 0⟩
  impact_velocity : Vector2 := ⟨0, 0⟩
  normal : Vector2 := ⟨0, 0⟩
  normal_impulse : ℚ := 0
  tangent_impulse : Vector2 := ⟨0, 0⟩
deriving DecidableEq, Repr

instance : Inhabited Box2DContactPoint := ⟨{}⟩

/-- The method `Box2DContactPoint::flipped_a_b`. -/
def Box2DContactPoint.flipped_a_b (p : Box2DContactPoint) : Box2DContactPoint :=
  { p with
    fixture_a := p.fixture_b
    fixture_b := p.fixture_a
    normal := -p.normal
    tangent_impulse := -p.tangent_impulse }

/-! ## Kernel objects (the physics library, a black box) -/

/-- The kernel's `b2Vec2`. -/
structure b2Vec2 where
  x : ℚ
  y : ℚ
deriving DecidableEq, Repr

instance : Inhabited b2Vec2 := ⟨⟨0, 0⟩⟩

/-- The kernel's `b2BodyDef`, the cached definition of a body (`type` is `b2BodyType`:
0 static, 1 kinematic, 2 dynamic). -/
structure b2BodyDef where
  type : Nat := 0
  position : b2Vec2 := ⟨0, 0⟩
  angle : ℚ := 0
  linearVelocity : b2Vec2 := ⟨0, 0⟩
  angularVelocity : ℚ := 0
  linearDamping : ℚ := 0
  angularDamping : ℚ := 0
  allowSleep : Bool := true
  awake : Bool := true
  fixedRotation : Bool := false
  bullet : Bool := false
  enabled : Bool := true
  gravityScale : ℚ := 1
deriving DecidableEq, Repr

instance : Inhabited b2BodyDef := ⟨{}⟩

/-- The kernel's `b2MassData`. -/
structure b2MassData where
  mass : ℚ
  center : b2Vec2
  I : ℚ
deriving DecidableEq, Repr

/-- The kernel's `b2Filter` (`categoryBits` and `maskBits` are 16-bit masks, `groupIndex`
a 16-bit signed index; the bridge only stores and compares them). -/
structure b2Filter where
  categoryBits : Nat
  maskBits : Nat
  groupIndex : Int
deriving DecidableEq, Repr

/-- A kernel fixture as far as `update_filterdata` observes it: its filter data and what
`GetUserData().owner->get_override_body_collision()` returns for it. -/
structure b2Fixture where
  filter : b2Filter
  override_body_collision : Bool
deriving DecidableEq, Repr

/-- The kernel's `b2Fixture::SetFilterData`. -/
def b2Fixture.SetFilterData (f : b2Fixture) (filter : b2Filter) : b2Fixture :=
  { f with filter := filter }

/-- A kernel body as far as the bridge observes it: its current state in the shape of the
definition it was created from (pose, velocities, flags), the owner stored in its user data,
the mass data last handed over by `SetMassData` (`none`: the kernel computes the mass
itself), and its fixture list in `GetFixtureList()` / `GetNext()` order. -/
structure b2Body where
  definition : b2BodyDef
  owner : Option Nat
  massData : Option b2MassData
  fixtures : List b2Fixture := []
deriving DecidableEq, Repr

/-- A kernel world as far as the bridge observes it: the result of `IsLocked()` and the
number of bodies it holds. -/
structure b2World where
  locked : Bool := false
  bodyCount : Nat := 0
deriving DecidableEq, Repr

/-- The conversions of `util/box2d_types_converter.h` and the engine's
`Transform2D::get_rotation`, which are not part of the embedded sources and are taken as
parameters: `b2_to_gd_transform` is `b2_to_gd` on a kernel pose (position and angle),
`computed_mass` / `computed_inertia` are the mass and inertia the kernel derives from a
body's fixtures when no mass data was handed to it, and `is_editor_hint` is what
`Engine::get_singleton()->is_editor_hint()` returns. -/
structure Env where
  gd_to_b2 : Vector2 → b2Vec2
  b2_to_gd : b2Vec2 → Vector2
  get_rotation : Transform2D → ℚ
  b2_to_gd_transform : b2Vec2 → ℚ → Transform2D
  computed_mass : b2Body → ℚ
  computed_inertia : b2Body → ℚ
  is_editor_hint : Bool := false

/-- Modelled from the spec: the kernel's `b2Body::GetMass`, part of the physics library,
which is not among the sources. By the spec, custom mass data handed to a live body is what
`get_mass()` reports afterwards, and otherwise the mass is the one the kernel computes from
the attached fixtures. -/
def b2Body.GetMass (env : Env) (b : b2Body) : ℚ :=
  match b.massData with
  | some d => d.mass
  | none => env.computed_mass b

/-- Modelled from the spec: the kernel's `b2Body::GetInertia`, part of the physics library,
which is not among the sources. By the spec, custom mass data handed to a live body is what
`get_inertia()` reports afterwards, and otherwise the inertia is the kernel-computed one. -/
def b2Body.GetInertia (env : Env) (b : b2Body) : ℚ :=
  match b.massData with
  | some d => d.I
  | none => env.computed_inertia b

/-! ## Pointer sets -/

/-- The engine's `VSet::insert` / `Set::insert` on a set of object identities kept as a
sorted list: an element already present is not inserted again. -/
def set_insert (x : Nat) (l : List Nat) : List Nat :=
  if x ∈ l then l else List.orderedInsert (fun a b => a ≤ b) x l

/-- The engine's `VSet::erase` / `Set::erase`: remove the element if it is found. -/
def set_erase (x : Nat) (l : List Nat) : List Nat := List.erase l x

/-! ## Bodies, worlds and the scene -/

/-- The simulation root `Box2DWorld`: its kernel world and its set of live bodies. -/
structure Box2DWorld where
  world : Option b2World
  bodies : List Nat := []
deriving DecidableEq, Repr

/-- The struct `ContactMonitor` of a body with contact monitoring enabled, as the methods
of `box2d_physics_body.cpp` use it (its declaration is in the header, which is not among the
sources): `contacts` is indexed and asked for its `size()`, and `Box2DContactPoint` carries
its id to be kept in a `VSet`, so it is the sequence of buffered contact points in index
order. -/
structure ContactMonitor where
  contacts : List Box2DContactPoint
deriving DecidableEq, Repr

/-- The fields of `Box2DPhysicsBody` that the lifecycle, transform and exception code in
`box2d_physics_body.cpp` touches. `transform` is the node's local transform, `parents` its
`get_parent()` chain from the nearest ancestor to the tree root. -/
structure Box2DPhysicsBody where
  transform : Transform2D
  parents : List Node
  world_node : Option Nat
  body : Option b2Body
  bodyDef : b2BodyDef
  massDataDef : b2MassData
  use_custom_massdata : Bool
  joints : List Nat
  filtered : List Nat
  filtering_me : List Nat
  last_valid_xform : Transform2D
  process_internal : Bool
  filterDef : b2Filter
  contact_monitor : Option ContactMonitor
  prev_sleeping_state : Bool
  prev_enabled_state : Bool
  block_transform_notify : Bool
  notify_local_transform : Bool
deriving DecidableEq, Repr

/-- Modelled from the spec: a newly constructed body. The member initialisers of
`Box2DPhysicsBody` are in `box2d_physics_body.h`, which is not among the sources; by the spec
the definition fields always exist and the kernel-body handle is created only when the entity
comes under a Simulation Root, so a new body has no kernel body, no cached root, no joints
and no exceptions. The custom mass data start at the values the setters call the defaults
(mass 1, inertia 0.5), the filter at the kernel's default with the mask the constructor in
`box2d_physics_body.cpp` assigns (`0x0001`), contact monitoring is off, and the recorded
awake and enabled flags start at the definition's defaults. Transform notifications are not
blocked, and local transform notifications are on, as the constructor in
`box2d_physics_body.cpp` requests with `set_notify_local_transform(true)`. -/
def fresh_body : Box2DPhysicsBody :=
  { transform := Transform2D.identity
    parents := []
    world_node := none
    body := none
    bodyDef := {}
    massDataDef := { mass := 1, center := ⟨0, 0⟩, I := 1 / 2 }
    use_custom_massdata := false
    joints := []
    filtered := []
    filtering_me := []
    last_valid_xform := Transform2D.identity
    process_internal := false
    filterDef := { categoryBits := 1, maskBits := 1, groupIndex := 0 }
    contact_monitor := none
    prev_sleeping_state := true
    prev_enabled_state := true
    block_transform_notify := false
    notify_local_transform := true }

/-- A callback delivered to a `Box2DJoint`; the joints themselves are outside the model,
so the calls are recorded. -/
inductive JointCall where
  | on_parent_created (joint : Nat) (parent : Nat)
  | on_node_predelete (joint : Nat) (node : Nat)
  | on_editor_transforms_changed (joint : Nat)
deriving DecidableEq, Repr

/-- The heap: every `Box2DWorld` and every `Box2DPhysicsBody` by identity, and the joint
callbacks issued so far. -/
structure Scene where
  worlds : Nat → Box2DWorld
  nodes : Nat → Box2DPhysicsBody
  joint_calls : List JointCall := []

/-- The method `Box2DPhysicsBody::get_box2dworld_transform`. -/
def get_box2dworld_transform (me : Box2DPhysicsBody) : Transform2D :=
  fold_back Transform2D.identity (get_walk me.world_node me.parents [me.transform])

/-- The kernel's `b2Body::SetTransform`, called outside a step: the pose is stored. -/
def b2Body.SetTransform (b : b2Body) (position : b2Vec2) (angle : ℚ) : b2Body :=
  { b with definition := { b.definition with position := position, angle := angle } }

/-- The case `NOTIFICATION_LOCAL_TRANSFORM_CHANGED` of `Box2DPhysicsBody::_notification`: the
body afterwards and the joint callbacks issued (only under the editor). -/
def on_local_transform_changed (env : Env) (me : Box2DPhysicsBody) :
    Box2DPhysicsBody × List JointCall :=
  let new_xform := get_box2dworld_transform me
  let me1 : Box2DPhysicsBody :=
    { me with
      bodyDef :=
        { me.bodyDef with
          position := env.gd_to_b2 new_xform.origin
          angle := env.get_rotation new_xform } }
  let me2 : Box2DPhysicsBody :=
    match me1.body with
    | some b =>
      { me1 with
        body := some (b.SetTransform (env.gd_to_b2 new_xform.origin) (env.get_rotation new_xform)) }
    | none => me1
  (me2,
    if env.is_editor_hint then me.joints.map JointCall.on_editor_transforms_changed else [])

/-- The engine's `Node2D::set_transform` on a body inside the tree: the local transform is
stored, and unless transform notifications are blocked a node that asked for local transform
notifications receives `NOTIFICATION_LOCAL_TRANSFORM_CHANGED` before the call returns. -/
def set_transform (env : Env) (p_transform : Transform2D) (me : Box2DPhysicsBody) :
    Box2DPhysicsBody × List JointCall :=
  let me1 : Box2DPhysicsBody := { me with transform := p_transform }
  if !me1.block_transform_notify && me1.notify_local_transform then
    on_local_transform_changed env me1
  else (me1, [])

/-- The method `Box2DPhysicsBody::set_box2dworld_transform`: the body afterwards and the
joint callbacks issued by the notification that `set_transform` may deliver. -/
def set_box2dworld_transform (env : Env) (p_transform : Transform2D) (me : Box2DPhysicsBody) :
    Box2DPhysicsBody × List JointCall :=
  set_transform env
    (fold_back Transform2D.identity (set_walk me.world_node me.parents [p_transform])) me

/-- The method `Box2DPhysicsBody::update_mass`. -/
def update_mass (p_calc_reset : Bool) (me : Box2DPhysicsBody) : Box2DPhysicsBody :=
  match me.body with
  | some b =>
    if me.use_custom_massdata then
      { me with body := some { b with massData := some me.massDataDef } }
    else if p_calc_reset then
      { me with body := some { b with massData := none } }
    else me
  | none => me

/-- The kernel's `b2World::CreateBody`, called outside a step: a body made from the
definition, and the world holding one body more. -/
def b2World.CreateBody (w : b2World) (d : b2BodyDef) : b2Body × b2World :=
  ({ definition := d, owner := none, massData := none, fixtures := [] },
    { w with bodyCount := w.bodyCount + 1 })

/-- The kernel's `b2World::DestroyBody`. -/
def b2World.DestroyBody (w : b2World) : b2World :=
  { w with bodyCount := w.bodyCount - 1 }

/-- The loop `joint->get()->on_parent_created(this)` over `joints`. -/
def notify_joints_created (self : Nat) (joints : List Nat) : List JointCall :=
  joints.map (fun j => JointCall.on_parent_created j self)

/-- The loop `joint->get()->on_node_predelete(this)` over `joints`. -/
def notify_joints_predelete (self : Nat) (joints : List Nat) : List JointCall :=
  joints.map (fun j => JointCall.on_node_predelete j self)

/-- The method `Box2DPhysicsBody::create_b2Body` of the body `self`: the returned flag and
the scene afterwards. -/
def create_b2Body (env : Env) (self : Nat) (s : Scene) : Bool × Scene :=
  let me := s.nodes self
  match me.world_node, me.body with
  | some w, none =>
    match (s.worlds w).world with
    | none => (false, s)
    | some kw =>
      let bodyDef : b2BodyDef :=
        { me.bodyDef with
          position := env.gd_to_b2 (get_box2dworld_transform me).origin
          angle := env.get_rotation (get_box2dworld_transform me) }
      let created := kw.CreateBody bodyDef
      let body : b2Body := { created.1 with owner := some self }
      let wn : Box2DWorld :=
        { world := some created.2, bodies := set_insert self (s.worlds w).bodies }
      let me1 := update_mass false { me with bodyDef := bodyDef, body := some body }
      (true,
        { worlds := Function.update s.worlds w wn
          nodes := Function.update s.nodes self me1
          joint_calls := s.joint_calls ++ notify_joints_created self me.joints })
  | _, _ => (false, s)

/-- The method `Box2DPhysicsBody::destroy_b2Body` of the body `self`. -/
def destroy_b2Body (self : Nat) (s : Scene) : Bool × Scene :=
  let me := s.nodes self
  match me.body with
  | some _ =>
    match me.world_node with
    | none => (false, s)
    | some w =>
      match (s.worlds w).world with
      | none => (false, s)
      | some kw =>
        let wn : Box2DWorld :=
          { world := some kw.DestroyBody, bodies := set_erase self (s.worlds w).bodies }
        (true,
          { s with
            worlds := Function.update s.worlds w wn
            nodes := Function.update s.nodes self { me with world_node := none, body := none } })
  | none => (false, s)

/-- The notifications of `Box2DPhysicsBody::_notification` that drive the body lifecycle.
`ENTER_TREE` carries what `Box2DWorld::find_world(this)` returns at that moment and the value
of `is_editor_hint() || is_debugging_collisions_hint()`. -/
inductive Notification where
  | PREDELETE
  | ENTER_TREE (new_world : Option Nat) (debug_hint : Bool)
  | EXIT_TREE
deriving DecidableEq, Repr

/-- The loop of `NOTIFICATION_PREDELETE` over `filtering_me`:
`filtering_me[i]->filtered.erase(this)`. -/
def erase_from_filterers (self : Nat) (nodes : Nat → Box2DPhysicsBody) :
    List Nat → (Nat → Box2DPhysicsBody)
  | [] => nodes
  | f :: rest =>
    erase_from_filterers self
      (Function.update nodes f { nodes f with filtered := set_erase self (nodes f).filtered }) rest

/-- Assignment to fields of the body `self`: the scene in which that body is replaced by
`f` of itself. -/
def Scene.modify (s : Scene) (self : Nat) (f : Box2DPhysicsBody → Box2DPhysicsBody) : Scene :=
  { s with nodes := Function.update s.nodes self (f (s.nodes self)) }

/-- The method `Box2DPhysicsBody::_notification` of the body `self`, for the lifecycle
notifications. -/
def _notification (env : Env) (self : Nat) (s : Scene) : Notification → Scene
  | .PREDELETE =>
    let s1 : Scene :=
      { s with joint_calls := s.joint_calls ++ notify_joints_predelete self (s.nodes self).joints }
    let s2 : Scene :=
      { s1 with nodes := erase_from_filterers self s1.nodes (s1.nodes self).filtering_me }
    (destroy_b2Body self s2).2
  | .ENTER_TREE new_world debug_hint =>
    let s1 := s.modify self (fun me => { me with last_valid_xform := get_box2dworld_transform me })
    let s4 : Scene :=
      if new_world ≠ (s1.nodes self).world_node then
        let s2 := if (s1.nodes self).world_node.isSome then (destroy_b2Body self s1).2 else s1
        let s3 := s2.modify self (fun me => { me with world_node := new_world })
        if new_world.isSome then (create_b2Body env self s3).2 else s3
      else s1
    if debug_hint then s4.modify self (fun me => { me with process_internal := true }) else s4
  | .EXIT_TREE =>
    let s1 := s.modify self (fun me => { me with process_internal := false })
    if (s1.nodes self).world_node.isSome then (destroy_b2Body self s1).2 else s1

/-- Whether the body is in the tree under a resolvable world after a notification was
handled, given whether it was before: entering the tree sets it to what `find_world` found,
leaving the tree clears it, and `NOTIFICATION_PREDELETE` (delivered before the node is taken
out of the tree) leaves it as it was. -/
def Notification.in_world (before : Bool) : Notification → Bool
  | .PREDELETE => before
  | .ENTER_TREE new_world _ => new_world.isSome
  | .EXIT_TREE => false

/-- Handles a sequence of notifications, first to last, keeping track of whether the body
is in the tree under a resolvable world. -/
def run_notifications (env : Env) (self : Nat) (start : Scene × Bool)
    (events : List Notification) : Scene × Bool :=
  events.foldl (fun st ev => (_notification env self st.1 ev, ev.in_world st.2)) start

/-- The world `w` has a kernel world. -/
def has_kernel (s : Scene) (w : Nat) : Prop := (s.worlds w).world.isSome = true

/-! ## Collision exceptions -/

/-- The argument `Node *p_node` of the exception methods: a null pointer, a node that is
not a `Box2DPhysicsBody`, or a body. -/
inductive NodeArg where
  | null
  | other (id : Nat)
  | body (id : Nat)
deriving DecidableEq, Repr

/-- The method `Box2DPhysicsBody::get_collision_exceptions` of the body `self`. -/
def get_collision_exceptions (self : Nat) (s : Scene) : List Nat :=
  (s.nodes self).filtered

/-- The method `Box2DPhysicsBody::add_collision_exception_with` of the body `self`. -/
def add_collision_exception_with (self : Nat) (p_node : NodeArg) (s : Scene) : Scene :=
  match p_node with
  | .null => s
  | .other _ => s
  | .body body =>
    let n1 := Function.update s.nodes self
      { s.nodes self with filtered := set_insert body (s.nodes self).filtered }
    let n2 := Function.update n1 body
      { n1 body with filtering_me := set_insert self (n1 body).filtering_me }
    { s with nodes := n2 }

/-- The method `Box2DPhysicsBody::remove_collision_exception_with` of the body `self`. -/
def remove_collision_exception_with (self : Nat) (p_node : NodeArg) (s : Scene) : Scene :=
  match p_node with
  | .null => s
  | .other _ => s
  | .body body =>
    let n1 := Function.update s.nodes self
      { s.nodes self with filtered := set_erase body (s.nodes self).filtered }
    let n2 := Function.update n1 body
      { n1 body with filtering_me := set_erase self (n1 body).filtering_me }
    { s with nodes := n2 }

/-- One call of an exception method: the receiver and the argument. -/
inductive ExceptionCall where
  | add (self : Nat) (p_node : NodeArg)
  | remove (self : Nat) (p_node : NodeArg)
deriving DecidableEq, Repr

/-- Performs one exception call. -/
def ExceptionCall.apply (s : Scene) : ExceptionCall → Scene
  | .add self p_node => add_collision_exception_with self p_node s
  | .remove self p_node => remove_collision_exception_with self p_node s

/-- Performs a sequence of exception calls, first to last. -/
def run_exception_calls (s : Scene) (calls : List ExceptionCall) : Scene :=
  calls.foldl ExceptionCall.apply s

/-- A scene in which no body has any exception yet: every `filtered` and `filtering_me`
set is empty. -/
def no_exceptions (s : Scene) : Prop :=
  ∀ a, (s.nodes a).filtered = [] ∧ (s.nodes a).filtering_me = []

/-! ## Contact manifolds -/

/-- The struct `ContactBufferManifold`: the array `points` (of `b2_maxManifoldPoints`
slots) and `count`. -/
structure ContactBufferManifold where
  points : List Box2DContactPoint
  count : Int := 0
deriving DecidableEq, Repr

namespace ContactBufferManifold

/-- The default-constructed manifold for a kernel whose `b2_maxManifoldPoints` is
`maxPoints`: every slot a default point, `count` zero. -/
def init (maxPoints : Nat) : ContactBufferManifold :=
  { points := List.replicate maxPoints {}, count := 0 }

/-- The array read `points[i]`. -/
def point (m : ContactBufferManifold) (i : Nat) : Box2DContactPoint :=
  m.points.getD i default

/-- The loop `for (int i = count; i > p_idx; --i) points[i] = points[i - 1];`, entered with
`i`. -/
def shift_up (p_idx : Nat) : Nat → List Box2DContactPoint → List Box2DContactPoint
  | 0, points => points
  | i + 1, points =>
    if i + 1 > p_idx then shift_up p_idx i (points.set (i + 1) (points.getD i default))
    else points

/-- The loop `for (int i = p_idx; i < count - 1; ++i) points[i] = points[i + 1];`, entered
with `i` and `steps = count - 1 - i` iterations to go. -/
def shift_down : Nat → Nat → List Box2DContactPoint → List Box2DContactPoint
  | 0, _, points => points
  | steps + 1, i, points =>
    shift_down steps (i + 1) (points.set i (points.getD (i + 1) default))

/-- The method `ContactBufferManifold::insert`, for a kernel whose `b2_maxManifoldPoints`
is `maxPoints`. Each `ERR_FAIL_COND` returns with the manifold as it was. -/
def insert (maxPoints : Nat) (m : ContactBufferManifold) (p_point : Box2DContactPoint)
    (p_idx : Int) : ContactBufferManifold :=
  if m.count + 1 > maxPoints then m
  else if p_idx < 0 ∨ p_idx ≥ maxPoints then m
  else if p_idx > m.count then m
  else
    let shifted :=
      if p_idx < m.count then shift_up p_idx.toNat m.count.toNat m.points else m.points
    { points := shifted.set p_idx.toNat p_point, count := m.count + 1 }

/-- The method `ContactBufferManifold::remove`, for a kernel whose `b2_maxManifoldPoints`
is `maxPoints`. -/
def remove (maxPoints : Nat) (m : ContactBufferManifold) (p_idx : Int) :
    ContactBufferManifold :=
  if p_idx < 0 ∨ p_idx ≥ m.count ∨ p_idx ≥ maxPoints then m
  else
    let points :=
      if p_idx < m.count - 1 then
        let shifted := shift_down (m.count - 1 - p_idx).toNat p_idx.toNat m.points
        shifted.set (m.count - 1).toNat { shifted.getD (m.count - 1).toNat default with id := -1 }
      else m.points
    { points := points, count := m.count - 1 }

end ContactBufferManifold

/-- One call on a manifold. -/
inductive ManifoldCall where
  | insert (p_point : Box2DContactPoint) (p_idx : Int)
  | remove (p_idx : Int)
deriving DecidableEq, Repr

/-- Performs one call on a manifold. -/
def ManifoldCall.apply (maxPoints : Nat) (m : ContactBufferManifold) :
    ManifoldCall → ContactBufferManifold
  | .insert p_point p_idx => m.insert maxPoints p_point p_idx
  | .remove p_idx => m.remove maxPoints p_idx

/-- Performs a sequence of calls on a manifold, first to last. -/
def run_manifold_calls (maxPoints : Nat) (m : ContactBufferManifold)
    (calls : List ManifoldCall) : ContactBufferManifold :=
  calls.foldl (ManifoldCall.apply maxPoints) m

/-! ## The deferred signal queue -/

/-- The class `Box2DWorld::GodotSignalCaller`. -/
structure GodotSignalCaller where
  signal_name : String := ""
  obj_emitter : Option Nat := none
  obj_a : Option Nat := none
  obj_b : Option Nat := none
deriving DecidableEq, Repr

/-- One call `emitter->emit_signal(signal_name, args...)`. -/
structure Emission where
  emitter : Nat
  signal_name : String
  args : List (Option Nat)
deriving DecidableEq, Repr

/-- The class `Box2DWorld::Box2dCollisionCallbackQueue`. `world` holds the current state of
the kernel world the pointer refers to; the front of the `std::list` is the head. -/
structure Box2dCollisionCallbackQueue where
  world : Option b2World := none
  collision_callback_queue : List GodotSignalCaller := []
deriving DecidableEq, Repr

namespace Box2dCollisionCallbackQueue

/-- The method `set_world`. -/
def set_world (q : Box2dCollisionCallbackQueue) (p : Option b2World) :
    Box2dCollisionCallbackQueue :=
  { q with world := p }

/-- The method `empty`. -/
def empty (q : Box2dCollisionCallbackQueue) : Bool :=
  q.collision_callback_queue.isEmpty

/-- The method `front`; `none` on an empty list, where `std::list::front` is undefined. -/
def front (q : Box2dCollisionCallbackQueue) : Option GodotSignalCaller :=
  q.collision_callback_queue.head?

/-- The method `pop_front`; `none` on an empty list, where `std::list::pop_front` is
undefined. -/
def pop_front (q : Box2dCollisionCallbackQueue) : Option Box2dCollisionCallbackQueue :=
  match q.collision_callback_queue with
  | [] => none
  | _ :: rest => some { q with collision_callback_queue := rest }

/-- The method `push_back`: the queue afterwards and the signals emitted during the call.
`none` when `assert(world)` fails or the immediate path dereferences a null emitter. -/
def push_back (q : Box2dCollisionCallbackQueue) (sig : GodotSignalCaller) :
    Option (Box2dCollisionCallbackQueue × List Emission) :=
  match q.world with
  | none => none
  | some world =>
    if world.locked then
      some ({ q with collision_callback_queue := q.collision_callback_queue ++ [sig] }, [])
    else
      match sig.obj_emitter with
      | none => none
      | some emitter =>
        if sig.obj_b.isSome then
          some (q, [⟨emitter, sig.signal_name, [sig.obj_a, sig.obj_b]⟩])
        else
          some (q, [⟨emitter, sig.signal_name, [sig.obj_a]⟩])

/-- Pushes a sequence of signal requests, first to last, collecting the emissions. -/
def push_all : Box2dCollisionCallbackQueue → List GodotSignalCaller →
    Option (Box2dCollisionCallbackQueue × List Emission)
  | q, [] => some (q, [])
  | q, sig :: rest =>
    match q.push_back sig with
    | none => none
    | some (q1, out1) =>
      match push_all q1 rest with
      | none => none
      | some (q2, out2) => some (q2, out1 ++ out2)

/-- The draining loop `while (!empty()) { take front(); pop_front(); }`, run for at most
`fuel` iterations: the requests taken, in order, and the queue left. `none` when the
iterations do not suffice. -/
def drain : Nat → Box2dCollisionCallbackQueue →
    Option (List GodotSignalCaller × Box2dCollisionCallbackQueue)
  | fuel, q =>
    if q.empty then some ([], q)
    else
      match fuel with
      | 0 => none
      | fuel + 1 =>
        match q.front, q.pop_front with
        | some sig, some q1 =>
          match drain fuel q1 with
          | some (taken, q2) => some (sig :: taken, q2)
          | none => none
        | _, _ => none

end Box2dCollisionCallbackQueue

/-! ## Mass data -/

/-- The method `Box2DPhysicsBody::set_custom_mass_data` (the warning it may print changes no
state). -/
def set_custom_mass_data (env : Env) (p_mass p_inertia : ℚ) (p_center : Vector2)
    (me : Box2DPhysicsBody) : Box2DPhysicsBody :=
  update_mass false
    { me with massDataDef := { mass := p_mass, I := p_inertia, center := env.gd_to_b2 p_center } }

/-- The method `Box2DPhysicsBody::get_mass`. -/
def get_mass (env : Env) (me : Box2DPhysicsBody) : ℚ :=
  match me.body with
  | some b => b.GetMass env
  | none => 1

/-- The method `Box2DPhysicsBody::get_inertia`. -/
def get_inertia (env : Env) (me : Box2DPhysicsBody) : ℚ :=
  match me.body with
  | some b => b.GetInertia env
  | none => 1

/-! ## Collision filter -/

/-- The loop of `update_filterdata` over the fixture list of the kernel body. -/
def set_filter_loop (filterDef : b2Filter) : List b2Fixture → List b2Fixture
  | [] => []
  | fixture :: next =>
    (if !fixture.override_body_collision then fixture.SetFilterData filterDef else fixture)
      :: set_filter_loop filterDef next

/-- The method `Box2DPhysicsBody::update_filterdata`. -/
def update_filterdata (me : Box2DPhysicsBody) : Box2DPhysicsBody :=
  match me.body with
  | some b => { me with body := some { b with fixtures := set_filter_loop me.filterDef b.fixtures } }
  | none => me

/-- The method `Box2DPhysicsBody::set_collision_layer`. -/
def set_collision_layer (p_layer : Nat) (me : Box2DPhysicsBody) : Box2DPhysicsBody :=
  if me.filterDef.categoryBits ≠ p_layer then
    update_filterdata { me with filterDef := { me.filterDef with categoryBits := p_layer } }
  else me

/-- The method `Box2DPhysicsBody::set_collision_mask`. -/
def set_collision_mask (p_mask : Nat) (me : Box2DPhysicsBody) : Box2DPhysicsBody :=
  if me.filterDef.maskBits ≠ p_mask then
    update_filterdata { me with filterDef := { me.filterDef with maskBits := p_mask } }
  else me

/-- The method `Box2DPhysicsBody::set_group_index`. -/
def set_group_index (p_group_index : Int) (me : Box2DPhysicsBody) : Box2DPhysicsBody :=
  if me.filterDef.groupIndex ≠ p_group_index then
    update_filterdata { me with filterDef := { me.filterDef with groupIndex := p_group_index } }
  else me

/-- The method `Box2DPhysicsBody::set_filter_data`. -/
def set_filter_data (p_layer p_mask : Nat) (p_group_index : Int) (me : Box2DPhysicsBody) :
    Box2DPhysicsBody :=
  if me.filterDef.categoryBits ≠ p_layer ∨ me.filterDef.maskBits ≠ p_mask ∨
      me.filterDef.groupIndex ≠ p_group_index then
    update_filterdata
      { me with
        filterDef := { categoryBits := p_layer, maskBits := p_mask, groupIndex := p_group_index } }
  else me

/-! ## Cached body properties

The kernel's own setters are outside the sources; on a live kernel body they are modelled as
storing the value in the kernel body's state. -/

/-- The kernel's state change behind the `Set...` calls of a live body. -/
def b2Body.store (b : b2Body) (f : b2BodyDef → b2BodyDef) : b2Body :=
  { b with definition := f b.definition }

/-- The method `Box2DPhysicsBody::set_linear_velocity`. -/
def set_linear_velocity (env : Env) (p_vel : Vector2) (me : Box2DPhysicsBody) :
    Box2DPhysicsBody :=
  { me with
    body := me.body.map (fun b => b.store (fun d => { d with linearVelocity := env.gd_to_b2 p_vel }))
    bodyDef := { me.bodyDef with linearVelocity := env.gd_to_b2 p_vel } }

/-- The method `Box2DPhysicsBody::get_linear_velocity`. -/
def get_linear_velocity (env : Env) (me : Box2DPhysicsBody) : Vector2 :=
  match me.body with
  | some b => env.b2_to_gd b.definition.linearVelocity
  | none => env.b2_to_gd me.bodyDef.linearVelocity

/-- The method `Box2DPhysicsBody::set_angular_velocity`. -/
def set_angular_velocity (p_omega : ℚ) (me : Box2DPhysicsBody) : Box2DPhysicsBody :=
  { me with
    body := me.body.map (fun b => b.store (fun d => { d with angularVelocity := p_omega }))
    bodyDef := { me.bodyDef with angularVelocity := p_omega } }

/-- The method `Box2DPhysicsBody::get_angular_velocity`. -/
def get_angular_velocity (me : Box2DPhysicsBody) : ℚ :=
  match me.body with
  | some b => b.definition.angularVelocity
  | none => me.bodyDef.angularVelocity

/-- The method `Box2DPhysicsBody::set_gravity_scale`. -/
def set_gravity_scale (p_scale : ℚ) (me : Box2DPhysicsBody) : Box2DPhysicsBody :=
  { me with
    body := me.body.map (fun b => b.store (fun d => { d with gravityScale := p_scale }))
    bodyDef := { me.bodyDef with gravityScale := p_scale } }

/-- The method `Box2DPhysicsBody::get_gravity_scale`. -/
def get_gravity_scale (me : Box2DPhysicsBody) : ℚ := me.bodyDef.gravityScale

/-- The method `Box2DPhysicsBody::set_type`; `Mode` and `b2BodyType` are enumerations over
the same integers, so the `static_cast` keeps the value. -/
def set_type (p_type : Nat) (me : Box2DPhysicsBody) : Box2DPhysicsBody :=
  { me with
    body := me.body.map (fun b => b.store (fun d => { d with type := p_type }))
    bodyDef := { me.bodyDef with type := p_type } }

/-- The method `Box2DPhysicsBody::get_type`. -/
def get_type (me : Box2DPhysicsBody) : Nat := me.bodyDef.type

/-- The method `Box2DPhysicsBody::set_bullet`. -/
def set_bullet (p_ccd : Bool) (me : Box2DPhysicsBody) : Box2DPhysicsBody :=
  { me with
    body := me.body.map (fun b => b.store (fun d => { d with bullet := p_ccd }))
    bodyDef := { me.bodyDef with bullet := p_ccd } }

/-- The method `Box2DPhysicsBody::is_bullet`. -/
def is_bullet (me : Box2DPhysicsBody) : Bool := me.bodyDef.bullet

/-- The method `Box2DPhysicsBody::set_awake`. -/
def set_awake (p_awake : Bool) (me : Box2DPhysicsBody) : Box2DPhysicsBody :=
  { me with
    body := me.body.map (fun b => b.store (fun d => { d with awake := p_awake }))
    bodyDef := { me.bodyDef with awake := p_awake }
    prev_sleeping_state := p_awake }

/-- The method `Box2DPhysicsBody::is_awake`. -/
def is_awake (me : Box2DPhysicsBody) : Bool :=
  match me.body with
  | some b => b.definition.awake
  | none => me.bodyDef.awake

/-- The method `Box2DPhysicsBody::set_can_sleep`. -/
def set_can_sleep (p_can_sleep : Bool) (me : Box2DPhysicsBody) : Box2DPhysicsBody :=
  { me with
    body := me.body.map (fun b => b.store (fun d => { d with allowSleep := p_can_sleep }))
    bodyDef := { me.bodyDef with allowSleep := p_can_sleep } }

/-- The method `Box2DPhysicsBody::get_can_sleep`. -/
def get_can_sleep (me : Box2DPhysicsBody) : Bool := me.bodyDef.allowSleep

/-- The method `Box2DPhysicsBody::set_enabled`. -/
def set_enabled (p_enabled : Bool) (me : Box2DPhysicsBody) : Box2DPhysicsBody :=
  { me with
    body := me.body.map (fun b => b.store (fun d => { d with enabled := p_enabled }))
    bodyDef := { me.bodyDef with enabled := p_enabled } }

/-- The method `Box2DPhysicsBody::is_enabled`. -/
def is_enabled (me : Box2DPhysicsBody) : Bool := me.bodyDef.enabled

/-- The method `Box2DPhysicsBody::set_fixed_rotation`. -/
def set_fixed_rotation (p_fixed : Bool) (me : Box2DPhysicsBody) : Box2DPhysicsBody :=
  { me with
    body := me.body.map (fun b => b.store (fun d => { d with fixedRotation := p_fixed }))
    bodyDef := { me.bodyDef with fixedRotation := p_fixed } }

/-- The method `Box2DPhysicsBody::is_fixed_rotation`. -/
def is_fixed_rotation (me : Box2DPhysicsBody) : Bool := me.bodyDef.fixedRotation

/-! ## Stepping -/

/-- The method `Box2DPhysicsBody::sync_state`, called by `step` on a live body: the body
afterwards and the joint callbacks issued. `body->GetTransform()` is read from the kernel
body as it is when `set_box2dworld_transform` is called. -/
def sync_state (env : Env) (b : b2Body) (me : Box2DPhysicsBody) :
    Box2DPhysicsBody × List JointCall :=
  let me1 := { me with block_transform_notify := true }
  let r := set_box2dworld_transform env
    (env.b2_to_gd_transform b.definition.position b.definition.angle) me1
  ({ r.1 with block_transform_notify := false }, r.2)

/-- The method `Box2DPhysicsBody::step`: the body afterwards, the names of the signals it
emitted, in order, and the joint callbacks issued. `IsAwake()` and `IsEnabled()` read the
kernel body's state. -/
def step (env : Env) (me : Box2DPhysicsBody) :
    Box2DPhysicsBody × List String × List JointCall :=
  match me.body with
  | some b =>
    let awake := b.definition.awake
    let r1 : Box2DPhysicsBody × List String :=
      if awake ≠ me.prev_sleeping_state then
        ({ me with prev_sleeping_state := awake }, ["sleeping_state_changed"])
      else (me, [])
    let enabled := b.definition.enabled
    let out2 : List String :=
      if enabled ≠ r1.1.prev_enabled_state then ["enabled_state_changed"] else []
    ((sync_state env b r1.1).1, r1.2 ++ out2, (sync_state env b r1.1).2)
  | none => (me, [], [])

/-- The kernel between two steps of a body: it may replace the state of the kernel body,
the body itself stays the same otherwise. -/
def kernel_moves (b : b2Body) (me : Box2DPhysicsBody) : Box2DPhysicsBody :=
  { me with body := me.body.map (fun _ => b) }

/-! ## Contact queries -/

/-- Modelled from the spec: the indexed read `contacts[p_idx]` that serves the spec's
`contactAt(entity, index)`. `contacts` is a `VSet`, a container of the engine that is not
among the sources: inside the vector the read yields the stored point; outside it the
container's index check stops the process instead of returning, which is `none` here. -/
def ContactMonitor.contact_at (cm : ContactMonitor) (p_idx : Int) : Option Box2DContactPoint :=
  if 0 ≤ p_idx ∧ p_idx < cm.contacts.length then cm.contacts[p_idx.toNat]? else none

/-- The method `Box2DPhysicsBody::get_contact_count`. -/
def get_contact_count (me : Box2DPhysicsBody) : Int :=
  match me.contact_monitor with
  | none => 0
  | some cm => cm.contacts.length

/-- The method `Box2DPhysicsBody::get_contact_fixture_a`: `some r` when the call returns `r`,
`none` when it aborts. -/
def get_contact_fixture_a (me : Box2DPhysicsBody) (p_idx : Int) : Option (Option Nat) :=
  match me.contact_monitor with
  | none => some none
  | some cm => (cm.contact_at p_idx).map (fun c => c.fixture_a)

/-- The method `Box2DPhysicsBody::get_contact_fixture_b`: `some r` when the call returns `r`,
`none` when it aborts. -/
def get_contact_fixture_b (me : Box2DPhysicsBody) (p_idx : Int) : Option (Option Nat) :=
  match me.contact_monitor with
  | none => some none
  | some cm => (cm.contact_at p_idx).map (fun c => c.fixture_b)

/-- The method `Box2DPhysicsBody::get_contact_world_pos`: `some r` when the call returns `r`,
`none` when it aborts. -/
def get_contact_world_pos (me : Box2DPhysicsBody) (p_idx : Int) : Option Vector2 :=
  match me.contact_monitor with
  | none => some ⟨0, 0⟩
  | some cm => (cm.contact_at p_idx).map (fun c => c.world_pos)

/-- The method `Box2DPhysicsBody::get_contact_impact_velocity`: `some r` when the call
returns `r`, `none` when it aborts. -/
def get_contact_impact_velocity (me : Box2DPhysicsBody) (p_idx : Int) : Option Vector2 :=
  match me.contact_monitor with
  | none => some ⟨0, 0⟩
  | some cm => (cm.contact_at p_idx).map (fun c => c.impact_velocity)

/-- The method `Box2DPhysicsBody::get_contact_normal`: `some r` when the call returns `r`,
`none` when it aborts. -/
def get_contact_normal (me : Box2DPhysicsBody) (p_idx : Int) : Option Vector2 :=
  match me.contact_monitor with
  | none => some ⟨0, 0⟩
  | some cm => (cm.contact_at p_idx).map (fun c => c.normal)

/-- The method `Box2DPhysicsBody::get_contact_normal_impulse`: `some r` when the call
returns `r`, `none` when it aborts. -/
def get_contact_normal_impulse (me : Box2DPhysicsBody) (p_idx : Int) : Option ℚ :=
  match me.contact_monitor with
  | none => some 0
  | some cm => (cm.contact_at p_idx).map (fun c => c.normal_impulse)

/-- The method `Box2DPhysicsBody::get_contact_tangent_impulse`: `some r` when the call
returns `r`, `none` when it aborts. -/
def get_contact_tangent_impulse (me : Box2DPhysicsBody) (p_idx : Int) : Option Vector2 :=
  match me.contact_monitor with
  | none => some ⟨0, 0⟩
  | some cm => (cm.contact_at p_idx).map (fun c => c.tangent_impulse)

/-! ## The composed transform as the spec words it -/

/-- The CanvasItem transforms `P_1 .. P_k` strictly between a body and its world node,
nearest first: the ancestors below the world node, those that are CanvasItems. -/
def intermediate_transforms (world_node : Option Nat) (parents : List Node) :
    List Transform2D :=
  (parents.takeWhile (fun p => decide (some p.id ≠ world_node))).filterMap (fun p => p.canvas)

/-- The product `P_k * ... * P_1 * L` of the spec, for the ancestors `[P_1, .., P_k]` given
nearest first. -/
def ancestors_product (ancestors : List Transform2D) (L : Transform2D) : Transform2D :=
  ancestors.foldl (fun acc P => P * acc) L

/-! ## Concrete inputs used by the evaluations below -/

/-- A body that sits under two transformed ancestors: node 1 (nearest) translates by
`(1, 0)`, node 2 rotates by a quarter turn, and node 3 is the body's world. -/
def two_ancestor_body : Box2DPhysicsBody :=
  { fresh_body with
    transform := Transform2D.identity
    parents :=
      [⟨1, some ⟨⟨1, 0⟩, ⟨0, 1⟩, ⟨1, 0⟩⟩⟩, ⟨2, some ⟨⟨0, 1⟩, ⟨-1, 0⟩, ⟨0, 0⟩⟩⟩, ⟨3, none⟩]
    world_node := some 3 }

/-- A contact point with the given id. -/
def point_with_id (id : Int) : Box2DContactPoint := { id := id }

/-- A full manifold of a kernel with two points per manifold, holding the ids 10 and 11. -/
def two_point_manifold : ContactBufferManifold :=
  { points := [point_with_id 10, point_with_id 11], count := 2 }

/-- A manifold of a kernel with two points per manifold, holding one point with id 10. -/
def one_point_manifold : ContactBufferManifold :=
  { points := [point_with_id 10, {}], count := 1 }

/-- A kernel world in the middle of a step. -/
def locked_world : b2World := { locked := true }

/-- A kernel world between steps. -/
def unlocked_world : b2World := { locked := false }

/-- A request for `body_entered` on emitter 1 about node 2. -/
def body_entered_request : GodotSignalCaller :=
  { signal_name := "body_entered", obj_emitter := some 1, obj_a := some 2 }

/-- A request for `body_fixture_entered` on emitter 1 about the nodes 3 and 4. -/
def fixture_entered_request : GodotSignalCaller :=
  { signal_name := "body_fixture_entered", obj_emitter := some 1, obj_a := some 3,
    obj_b := some 4 }

/-- The body `self` is consistently attached: it has a kernel body exactly when it has a
cached world, and a cached world has a kernel world. -/
def linked (s : Scene) (self : Nat) : Prop :=
  (s.nodes self).body.isSome = (s.nodes self).world_node.isSome ∧
    ∀ w, (s.nodes self).world_node = some w → has_kernel s w

/-- Conversions that keep coordinates as they are and report no rotation. -/
def plain_env : Env :=
  { gd_to_b2 := fun v => ⟨v.x, v.y⟩
    b2_to_gd := fun v => ⟨v.x, v.y⟩
    get_rotation := fun _ => 0
    b2_to_gd_transform := fun p _ => ⟨⟨1, 0⟩, ⟨0, 1⟩, ⟨p.x, p.y⟩⟩
    computed_mass := fun _ => 1
    computed_inertia := fun _ => 1 }

/-- A scene of freshly constructed bodies in which no `Box2DWorld` has a kernel world. -/
def dormant_scene : Scene :=
  { worlds := fun _ => { world := none }, nodes := fun _ => fresh_body }

/-- A scene of freshly constructed bodies in which every `Box2DWorld` has a kernel world. -/
def live_scene : Scene :=
  { worlds := fun _ => { world := some {} }, nodes := fun _ => fresh_body }

/-- A scene in which body 0 lives in world 1: it has a kernel body and world 1 lists it. -/
def attached_scene : Scene :=
  { worlds := fun w =>
      if w = 1 then { world := some { bodyCount := 1 }, bodies := [0] } else { world := none }
    nodes := fun i =>
      if i = 0 then
        { fresh_body with
          world_node := some 1
          body := some { definition := {}, owner := some 0, massData := none } }
      else fresh_body }

/-- The exception bookkeeping is consistent: no set lists a body twice, and `b` is in the
`filtered` set of `a` exactly when `a` is in the `filtering_me` set of `b`. -/
def exceptions_mirrored (s : Scene) : Prop :=
  (∀ a, (s.nodes a).filtered.Nodup ∧ (s.nodes a).filtering_me.Nodup) ∧
    ∀ a b, b ∈ (s.nodes a).filtered ↔ a ∈ (s.nodes b).filtering_me

/-- A body with contact monitoring enabled and no contact buffered. -/
def monitored_body : Box2DPhysicsBody :=
  { fresh_body with contact_monitor := some { contacts := [] } }

/-- A body with contact monitoring enabled and one buffered contact, between the fixtures 5
and 6. -/
def touching_body : Box2DPhysicsBody :=
  { fresh_body with
    contact_monitor := some { contacts := [{ id := 0, fixture_a := some 5, fixture_b := some 6 }] } }

/-- A kernel body in its default state, owned by body 0, with one fixture that follows the
body's filter and one that overrides it. -/
def sample_kernel_body : b2Body :=
  { definition := {}
    owner := some 0
    massData := none
    fixtures :=
      [{ filter := ⟨1, 1, 0⟩, override_body_collision := false },
       { filter := ⟨4, 4, 0⟩, override_body_collision := true }] }

/-- A body that is live in world 1 with the kernel body `sample_kernel_body`. -/
def live_body : Box2DPhysicsBody :=
  { fresh_body with world_node := some 1, body := some sample_kernel_body }

/-- A live body that uses custom mass data. -/
def custom_mass_body : Box2DPhysicsBody :=
  { live_body with use_custom_massdata := true }

/-- A live body whose kernel body has been disabled while the recorded enabled flag is
still set. -/
def disabled_live_body : Box2DPhysicsBody :=
  { live_body with
    body := some { sample_kernel_body with
      definition := { sample_kernel_body.definition with enabled := false } }
    prev_enabled_state := true }

/-- A live body whose kernel body has fallen asleep while the recorded awake flag is still
set. -/
def sleeping_live_body : Box2DPhysicsBody :=
  { live_body with
    body := some { sample_kernel_body with
      definition := { sample_kernel_body.definition with awake := false } }
    prev_sleeping_state := true }

/-- A body under a plain (non-CanvasItem) node 4, a translated node 1 and a rotated node 2,
inside world 3, which itself sits under a translated node 5. -/
def nested_body : Box2DPhysicsBody :=
  { fresh_body with
    transform := ⟨⟨1, 0⟩, ⟨0, 1⟩, ⟨2, 3⟩⟩
    parents :=
      [⟨4, none⟩, ⟨1, some ⟨⟨1, 0⟩, ⟨0, 1⟩, ⟨1, 0⟩⟩⟩, ⟨2, some ⟨⟨0, 1⟩, ⟨-1, 0⟩, ⟨0, 0⟩⟩⟩,
        ⟨3, some ⟨⟨1, 0⟩, ⟨0, 1⟩, ⟨7, 7⟩⟩⟩, ⟨5, some ⟨⟨1, 0⟩, ⟨0, 1⟩, ⟨9, 9⟩⟩⟩]
    world_node := some 3 }

/-- A body directly under a translated CanvasItem (node 1) inside world 3. -/
def one_ancestor_body : Box2DPhysicsBody :=
  { fresh_body with
    parents := [⟨1, some ⟨⟨1, 0⟩, ⟨0, 1⟩, ⟨1, 0⟩⟩⟩, ⟨3, none⟩]
    world_node := some 3 }

/-- The scene after body 0 of `dormant_scene` added a collision exception with body 1. -/
def excepting_scene : Scene :=
  run_exception_calls dormant_scene [.add 0 (.body 1)]

/-- One lifecycle operation on a body: a direct call of `create_b2Body` or `destroy_b2Body`,
or a notification. -/
inductive LifecycleCall where
  | create_b2Body
  | destroy_b2Body
  | notify (ev : Notification)
deriving DecidableEq, Repr

/-- Performs one lifecycle operation on the body `self`. -/
def LifecycleCall.apply (env : Env) (self : Nat) (s : Scene) : LifecycleCall → Scene
  | .create_b2Body => (GodotBox2D.create_b2Body env self s).2
  | .destroy_b2Body => (GodotBox2D.destroy_b2Body self s).2
  | .notify ev => _notification env self s ev

/-- Performs a sequence of lifecycle operations on the body `self`, first to last. -/
def run_lifecycle (env : Env) (self : Nat) (s : Scene) (calls : List LifecycleCall) : Scene :=
  calls.foldl (LifecycleCall.apply env self) s

/-- The body `self` is registered consistently: a kernel body implies a cached world with a
kernel world that lists the body; a world that lists the body is the cached world of a body
with a kernel body; and no body set lists a body twice. -/
def registered (s : Scene) (self : Nat) : Prop :=
  (∀ b, (s.nodes self).body = some b →
    ∃ w, (s.nodes self).world_node = some w ∧ has_kernel s w ∧ self ∈ (s.worlds w).bodies) ∧
  (∀ w, self ∈ (s.worlds w).bodies →
    (s.nodes self).body.isSome = true ∧ (s.nodes self).world_node = some w) ∧
  (∀ w, (s.worlds w).bodies.Nodup)

/-- The scene after body 0 of `dormant_scene` entered the tree under world 1 and left the
tree again, in which every world has since been given a kernel world (by the code of
`Box2DWorld`, which is not among the sources). -/
def revived_scene : Scene :=
  { _notification plain_env 0
      (_notification plain_env 0 dormant_scene (.ENTER_TREE (some 1) false)) .EXIT_TREE with
    worlds := fun _ => { world := some {} } }

end GodotBox2D

namespace GodotBox2D

/-! # Theorems -/

/-! ## Transform round trip -/

theorem Vector2.add_def (a b : Vector2) : a + b = ⟨a.x + b.x, a.y + b.y⟩ := rfl

theorem Vector2.neg_def (v : Vector2) : -v = ⟨-v.x, -v.y⟩ := rfl

theorem Transform2D.mul_def (a b : Transform2D) : a * b = Transform2D.mul a b := rfl

/-- The transform-changed handler writes the cached definition and the kernel pose only: the
node's own transform, its place in the tree, its flags and the presence of a kernel body
stay. -/
theorem on_local_transform_changed_frame (env : Env) (me : Box2DPhysicsBody) :
    (on_local_transform_changed env me).1.transform = me.transform ∧
    (on_local_transform_changed env me).1.parents = me.parents ∧
    (on_local_transform_changed env me).1.world_node = me.world_node ∧
    (on_local_transform_changed env me).1.block_transform_notify = me.block_transform_notify ∧
    (on_local_transform_changed env me).1.notify_local_transform = me.notify_local_transform := by
  unfold on_local_transform_changed
  cases hb : me.body <;> exact ⟨rfl, rfl, rfl, rfl, rfl⟩

theorem set_transform_quiet (env : Env) (t : Transform2D) (me : Box2DPhysicsBody)
    (h : (!me.block_transform_notify && me.notify_local_transform) = false) :
    set_transform env t me = ({ me with transform := t }, []) := by
  unfold set_transform
  simp only [h, Bool.false_eq_true, if_false]

theorem set_transform_notifies (env : Env) (t : Transform2D) (me : Box2DPhysicsBody)
    (h : (!me.block_transform_notify && me.notify_local_transform) = true) :
    set_transform env t me = on_local_transform_changed env { me with transform := t } := by
  unfold set_transform
  simp only [h, if_true]

theorem set_transform_frame (env : Env) (t : Transform2D) (me : Box2DPhysicsBody) :
    (set_transform env t me).1.transform = t ∧
    (set_transform env t me).1.parents = me.parents ∧
    (set_transform env t me).1.world_node = me.world_node ∧
    (set_transform env t me).1.block_transform_notify = me.block_transform_notify ∧
    (set_transform env t me).1.notify_local_transform = me.notify_local_transform := by
  cases hc : (!me.block_transform_notify && me.notify_local_transform)
  · rw [set_transform_quiet env t me hc]
    exact ⟨rfl, rfl, rfl, rfl, rfl⟩
  · rw [set_transform_notifies env t me hc]
    exact on_local_transform_changed_frame env _

theorem set_box2dworld_transform_transform (env : Env) (p : Transform2D)
    (me : Box2DPhysicsBody) :
    (set_box2dworld_transform env p me).1.transform =
      fold_back Transform2D.identity (set_walk me.world_node me.parents [p]) := by
  unfold set_box2dworld_transform
  exact (set_transform_frame env _ me).1

/-- C1, evaluated at a body under two transformed ancestors whose transforms do not
commute: `set_box2dworld_transform(get_box2dworld_transform())` turns the identity local
transform into a translation by `(1, 1)`, so the local transform is not what it was. -/
theorem round_trip_two_ancestors_moves_body :
    (set_box2dworld_transform plain_env (get_box2dworld_transform two_ancestor_body)
        two_ancestor_body).1.transform = ⟨⟨1, 0⟩, ⟨0, 1⟩, ⟨1, 1⟩⟩
    ∧ two_ancestor_body.transform = ⟨⟨1, 0⟩, ⟨0, 1⟩, ⟨0, 0⟩⟩
    ∧ (set_box2dworld_transform plain_env (get_box2dworld_transform two_ancestor_body)
        two_ancestor_body).1.transform ≠ two_ancestor_body.transform := by
  have h : (set_box2dworld_transform plain_env (get_box2dworld_transform two_ancestor_body)
      two_ancestor_body).1.transform = ⟨⟨1, 0⟩, ⟨0, 1⟩, ⟨1, 1⟩⟩ := by
    rw [set_box2dworld_transform_transform]
    simp [get_box2dworld_transform, two_ancestor_body, fresh_body, get_walk,
      set_walk, fold_back, Transform2D.mul_def, Transform2D.mul, Transform2D.identity,
      Transform2D.affine_inverse, Transform2D.tdotx, Transform2D.tdoty, Transform2D.xform,
      Transform2D.basis_xform, Transform2D.basis_determinant, Vector2.add_def, Vector2.neg_def]
  refine ⟨h, rfl, ?_⟩
  rw [h]
  simp [two_ancestor_body, Transform2D.identity]

/-! ## Contact manifolds -/

theorem getD_set_of_lt {α : Type} (l : List α) (i j : Nat) (a d : α) (h : i < l.length) :
    (l.set i a).getD j d = if j = i then a else l.getD j d := by
  rw [List.getD_eq_getElem?_getD, List.getD_eq_getElem?_getD, List.getElem?_set]
  by_cases hij : i = j
  · subst hij; simp [h]
  · have hji : ¬ j = i := fun e => hij e.symm
    simp [hij, hji]

namespace ContactBufferManifold

theorem shift_up_length (p_idx : Nat) : ∀ (i : Nat) (points : List Box2DContactPoint),
    (shift_up p_idx i points).length = points.length
  | 0, points => rfl
  | i + 1, points => by
    unfold shift_up
    split
    · rw [shift_up_length p_idx i, List.length_set]
    · rfl

theorem shift_up_getD (p_idx : Nat) : ∀ (i : Nat) (points : List Box2DContactPoint),
    i < points.length → ∀ j : Nat,
    (shift_up p_idx i points).getD j default =
      if p_idx < j ∧ j ≤ i then points.getD (j - 1) default else points.getD j default
  | 0, points, _, j => by
    have : ¬ (p_idx < j ∧ j ≤ 0) := by omega
    rw [if_neg this]; rfl
  | i + 1, points, h, j => by
    unfold shift_up
    by_cases hp : i + 1 > p_idx
    · rw [if_pos hp, shift_up_getD p_idx i _ (by rw [List.length_set]; omega)]
      by_cases hj : p_idx < j ∧ j ≤ i
      · have h1 : p_idx < j ∧ j ≤ i + 1 := ⟨hj.1, by omega⟩
        rw [if_pos hj, if_pos h1, getD_set_of_lt _ _ _ _ _ h, if_neg (by omega)]
      · rw [if_neg hj, getD_set_of_lt _ _ _ _ _ h]
        by_cases hje : j = i + 1
        · have h1 : p_idx < j ∧ j ≤ i + 1 := by omega
          rw [if_pos hje, if_pos h1, hje]; rfl
        · have h1 : ¬ (p_idx < j ∧ j ≤ i + 1) := by omega
          rw [if_neg hje, if_neg h1]
    · have h1 : ¬ (p_idx < j ∧ j ≤ i + 1) := by omega
      rw [if_neg hp, if_neg h1]

theorem shift_down_length : ∀ (steps i : Nat) (points : List Box2DContactPoint),
    (shift_down steps i points).length = points.length
  | 0, _, points => rfl
  | steps + 1, i, points => by
    unfold shift_down
    rw [shift_down_length steps, List.length_set]

theorem shift_down_getD : ∀ (steps i : Nat) (points : List Box2DContactPoint),
    i + steps < points.length → ∀ j : Nat,
    (shift_down steps i points).getD j default =
      if i ≤ j ∧ j < i + steps then points.getD (j + 1) default else points.getD j default
  | 0, i, points, _, j => by
    have : ¬ (i ≤ j ∧ j < i + 0) := by omega
    rw [if_neg this]; rfl
  | steps + 1, i, points, h, j => by
    unfold shift_down
    rw [shift_down_getD steps (i + 1) _ (by rw [List.length_set]; omega)]
    have hi : i < points.length := by omega
    by_cases hj : i + 1 ≤ j ∧ j < i + 1 + steps
    · have h1 : i ≤ j ∧ j < i + (steps + 1) := by omega
      rw [if_pos hj, if_pos h1, getD_set_of_lt _ _ _ _ _ hi, if_neg (by omega)]
    · rw [if_neg hj, getD_set_of_lt _ _ _ _ _ hi]
      by_cases hje : j = i
      · have h1 : i ≤ j ∧ j < i + (steps + 1) := by omega
        rw [if_pos hje, if_pos h1, hje]
      · have h1 : ¬ (i ≤ j ∧ j < i + (steps + 1)) := by omega
        rw [if_neg hje, if_neg h1]


theorem insert_count_bounds (maxPoints : Nat) (m : ContactBufferManifold)
    (p_point : Box2DContactPoint) (p_idx : Int) (h : 0 ≤ m.count ∧ m.count ≤ maxPoints) :
    0 ≤ (m.insert maxPoints p_point p_idx).count ∧
      (m.insert maxPoints p_point p_idx).count ≤ maxPoints := by
  unfold insert
  split_ifs <;> (try dsimp only) <;> omega

theorem remove_count_bounds (maxPoints : Nat) (m : ContactBufferManifold) (p_idx : Int)
    (h : 0 ≤ m.count ∧ m.count ≤ maxPoints) :
    0 ≤ (m.remove maxPoints p_idx).count ∧ (m.remove maxPoints p_idx).count ≤ maxPoints := by
  unfold remove
  split_ifs <;> (try dsimp only) <;> omega

end ContactBufferManifold

theorem run_manifold_calls_count_bounds (maxPoints : Nat) (calls : List ManifoldCall) :
    ∀ m : ContactBufferManifold, 0 ≤ m.count ∧ m.count ≤ maxPoints →
      0 ≤ (run_manifold_calls maxPoints m calls).count ∧
        (run_manifold_calls maxPoints m calls).count ≤ maxPoints := by
  induction calls with
  | nil => intro m h; exact h
  | cons c rest ih =>
    intro m h
    show 0 ≤ (run_manifold_calls maxPoints (ManifoldCall.apply maxPoints m c) rest).count ∧ _
    apply ih
    cases c with
    | insert p_point p_idx => exact ContactBufferManifold.insert_count_bounds maxPoints m p_point p_idx h
    | remove p_idx => exact ContactBufferManifold.remove_count_bounds maxPoints m p_idx h

/-- C2: starting from a default-constructed manifold, after every sequence of `insert` and
`remove` calls with arbitrary points and indices, `0 <= count <= b2_maxManifoldPoints`. -/
theorem manifold_count_within_bounds (maxPoints : Nat) (calls : List ManifoldCall) :
    0 ≤ (run_manifold_calls maxPoints (ContactBufferManifold.init maxPoints) calls).count ∧
      (run_manifold_calls maxPoints (ContactBufferManifold.init maxPoints) calls).count
        ≤ maxPoints :=
  run_manifold_calls_count_bounds maxPoints calls _ ⟨le_refl _, Int.ofNat_nonneg _⟩

/-- C3: on a manifold whose array has `b2_maxManifoldPoints` slots and whose count does not
exceed it, `remove(idx)` with `0 <= idx < count` decrements `count` by one, keeps `points[i]`
for `i < idx` and moves the old `points[i+1]` to `points[i]` for `idx <= i < count-1`; for
every other `idx` the manifold is unchanged. -/
theorem remove_shifts_later_points_down (maxPoints : Nat) (m : ContactBufferManifold)
    (p_idx : Int) (hlen : m.points.length = maxPoints) (hcount : m.count ≤ maxPoints) :
    (0 ≤ p_idx ∧ p_idx < m.count →
      (m.remove maxPoints p_idx).count = m.count - 1 ∧
      (∀ i : Nat, (i : Int) < p_idx → (m.remove maxPoints p_idx).point i = m.point i) ∧
      (∀ i : Nat, p_idx ≤ (i : Int) → (i : Int) < m.count - 1 →
        (m.remove maxPoints p_idx).point i = m.point (i + 1))) ∧
    (¬ (0 ≤ p_idx ∧ p_idx < m.count) → m.remove maxPoints p_idx = m) := by
  constructor
  · rintro ⟨h0, h1⟩
    have hg : ¬ (p_idx < 0 ∨ p_idx ≥ m.count ∨ p_idx ≥ maxPoints) := by omega
    unfold ContactBufferManifold.remove
    rw [if_neg hg]
    by_cases hs : p_idx < m.count - 1
    · simp only [if_pos hs, ContactBufferManifold.point]
      have hlast : (m.count - 1).toNat < (ContactBufferManifold.shift_down
          (m.count - 1 - p_idx).toNat p_idx.toNat m.points).length := by
        rw [ContactBufferManifold.shift_down_length]; omega
      have hfit : p_idx.toNat + (m.count - 1 - p_idx).toNat < m.points.length := by omega
      refine ⟨trivial, ?_, ?_⟩
      · intro i hi
        rw [getD_set_of_lt _ _ _ _ _ hlast, if_neg (by omega),
          ContactBufferManifold.shift_down_getD _ _ _ hfit, if_neg (by omega)]
      · intro i hi1 hi2
        rw [getD_set_of_lt _ _ _ _ _ hlast, if_neg (by omega),
          ContactBufferManifold.shift_down_getD _ _ _ hfit, if_pos (by omega)]
    · simp only [if_neg hs]
      refine ⟨trivial, fun i _ => rfl, ?_⟩
      intro i hi1 hi2
      omega
  · intro h
    have hg : p_idx < 0 ∨ p_idx ≥ m.count ∨ p_idx ≥ maxPoints := by omega
    unfold ContactBufferManifold.remove
    rw [if_pos hg]

/-- C4: on a manifold whose array has `b2_maxManifoldPoints` slots and with
`count < b2_maxManifoldPoints`, `insert(p, idx)` with `0 <= idx <= count` increments `count`,
stores `p` at `points[idx]`, keeps `points[i]` for `i < idx` and moves each old `points[i]`
with `idx <= i < count` to `points[i+1]`; when the manifold is full, or `idx < 0`, or
`idx > count`, the manifold is unchanged. -/
theorem insert_shifts_later_points_up (maxPoints : Nat) (m : ContactBufferManifold)
    (p_point : Box2DContactPoint) (p_idx : Int) (hlen : m.points.length = maxPoints) :
    (m.count < maxPoints → 0 ≤ p_idx → p_idx ≤ m.count →
      (m.insert maxPoints p_point p_idx).count = m.count + 1 ∧
      (m.insert maxPoints p_point p_idx).point p_idx.toNat = p_point ∧
      (∀ i : Nat, (i : Int) < p_idx → (m.insert maxPoints p_point p_idx).point i = m.point i) ∧
      (∀ i : Nat, p_idx ≤ (i : Int) → (i : Int) < m.count →
        (m.insert maxPoints p_point p_idx).point (i + 1) = m.point i)) ∧
    ((maxPoints : Int) ≤ m.count ∨ p_idx < 0 ∨ p_idx > m.count →
      m.insert maxPoints p_point p_idx = m) := by
  constructor
  · intro hc h0 h1
    have hg1 : ¬ (m.count + 1 > maxPoints) := by omega
    have hg2 : ¬ (p_idx < 0 ∨ p_idx ≥ maxPoints) := by omega
    have hg3 : ¬ (p_idx > m.count) := by omega
    unfold ContactBufferManifold.insert
    rw [if_neg hg1, if_neg hg2, if_neg hg3]
    simp only [ContactBufferManifold.point]
    by_cases hs : p_idx < m.count
    · rw [if_pos hs]
      have hl : p_idx.toNat < (ContactBufferManifold.shift_up p_idx.toNat m.count.toNat
          m.points).length := by
        rw [ContactBufferManifold.shift_up_length]; omega
      have hfit : m.count.toNat < m.points.length := by omega
      refine ⟨trivial, ?_, ?_, ?_⟩
      · rw [getD_set_of_lt _ _ _ _ _ hl, if_pos rfl]
      · intro i hi
        rw [getD_set_of_lt _ _ _ _ _ hl, if_neg (by omega),
          ContactBufferManifold.shift_up_getD _ _ _ hfit, if_neg (by omega)]
      · intro i hi1 hi2
        rw [getD_set_of_lt _ _ _ _ _ hl, if_neg (by omega),
          ContactBufferManifold.shift_up_getD _ _ _ hfit, if_pos (by omega)]
        rfl
    · rw [if_neg hs]
      have hl : p_idx.toNat < m.points.length := by omega
      refine ⟨trivial, ?_, ?_, ?_⟩
      · rw [getD_set_of_lt _ _ _ _ _ hl, if_pos rfl]
      · intro i hi
        rw [getD_set_of_lt _ _ _ _ _ hl, if_neg (by omega)]
      · intro i hi1 hi2
        omega
  · intro h
    unfold ContactBufferManifold.insert
    by_cases hg1 : m.count + 1 > maxPoints
    · rw [if_pos hg1]
    · rw [if_neg hg1]
      by_cases hg2 : p_idx < 0 ∨ p_idx ≥ maxPoints
      · rw [if_pos hg2]
      · rw [if_neg hg2]
        have hg3 : p_idx > m.count := by omega
        rw [if_pos hg3]

/-- C3 at a full two-point manifold: removing index 0 leaves one point, the old
`points[1]`. -/
theorem remove_shifts_later_points_down_witness :
    two_point_manifold.points.length = 2 ∧ two_point_manifold.count ≤ (2 : Nat) ∧
    (two_point_manifold.remove 2 0).count = 1 ∧
    (two_point_manifold.remove 2 0).point 0 = point_with_id 11 := by
  have h := (remove_shifts_later_points_down 2 two_point_manifold 0 rfl (by decide)).1
    ⟨by decide, by decide⟩
  exact ⟨rfl, by decide, h.1, h.2.2 0 (by decide) (by decide)⟩

/-- C4 at a one-point manifold: inserting at index 0 stores the point there and moves the
old `points[0]` to `points[1]`. -/
theorem insert_shifts_later_points_up_witness :
    one_point_manifold.points.length = 2 ∧
    (one_point_manifold.insert 2 (point_with_id 7) 0).count = 2 ∧
    (one_point_manifold.insert 2 (point_with_id 7) 0).point 0 = point_with_id 7 ∧
    (one_point_manifold.insert 2 (point_with_id 7) 0).point 1 = point_with_id 10 := by
  have h := (insert_shifts_later_points_up 2 one_point_manifold (point_with_id 7) 0 rfl).1
    (by decide) (by decide) (by decide)
  exact ⟨rfl, h.1, h.2.1, h.2.2.2 0 (by decide) (by decide)⟩

/-! ## The deferred signal queue -/

namespace Box2dCollisionCallbackQueue

theorem push_all_locked (w : b2World) (hl : w.locked = true) :
    ∀ (sigs : List GodotSignalCaller) (queued : List GodotSignalCaller),
      push_all { world := some w, collision_callback_queue := queued } sigs =
        some ({ world := some w, collision_callback_queue := queued ++ sigs }, [])
  | [], queued => by simp [push_all]
  | sig :: rest, queued => by
    simp [push_all, push_back, hl, push_all_locked w hl rest (queued ++ [sig])]

theorem drain_all (w : Option b2World) :
    ∀ (queued : List GodotSignalCaller) (fuel : Nat), queued.length ≤ fuel →
      drain fuel { world := w, collision_callback_queue := queued } =
        some (queued, { world := w, collision_callback_queue := [] })
  | [], fuel, _ => by
    unfold drain
    simp [empty]
  | sig :: rest, 0, h => by simp at h
  | sig :: rest, fuel + 1, h => by
    have hr : rest.length ≤ fuel := by simpa using h
    unfold drain
    simp [empty, front, pop_front, drain_all w rest fuel hr]

end Box2dCollisionCallbackQueue

/-- C5: pushing the requests `sigs` onto an empty queue while the kernel world is locked
emits nothing, and draining the queue afterwards (by `front` and `pop_front` until `empty`,
with any number of iterations allowed that is at least the number of requests) yields exactly
`sigs` in order and leaves the queue empty. -/
theorem locked_pushes_drain_in_fifo_order (w : b2World) (hl : w.locked = true)
    (sigs : List GodotSignalCaller) :
    ∃ q : Box2dCollisionCallbackQueue,
      Box2dCollisionCallbackQueue.push_all { world := some w } sigs = some (q, []) ∧
      ∀ fuel : Nat, sigs.length ≤ fuel →
        ∃ q_end : Box2dCollisionCallbackQueue,
          Box2dCollisionCallbackQueue.drain fuel q = some (sigs, q_end) ∧ q_end.empty = true := by
  refine ⟨{ world := some w, collision_callback_queue := sigs }, ?_, ?_⟩
  · simpa using Box2dCollisionCallbackQueue.push_all_locked w hl sigs []
  · intro fuel hf
    exact ⟨_, Box2dCollisionCallbackQueue.drain_all (some w) sigs fuel hf, rfl⟩

/-- C5 at two requests pushed during a locked step: both are queued without emission and
come out in the order pushed. -/
theorem locked_pushes_drain_in_fifo_order_witness :
    locked_world.locked = true ∧
    ∃ q : Box2dCollisionCallbackQueue,
      Box2dCollisionCallbackQueue.push_all { world := some locked_world }
        [body_entered_request, fixture_entered_request] = some (q, []) ∧
      ∀ fuel : Nat, [body_entered_request, fixture_entered_request].length ≤ fuel →
        ∃ q_end : Box2dCollisionCallbackQueue,
          Box2dCollisionCallbackQueue.drain fuel q =
            some ([body_entered_request, fixture_entered_request], q_end) ∧
          q_end.empty = true :=
  ⟨rfl, locked_pushes_drain_in_fifo_order locked_world rfl
    [body_entered_request, fixture_entered_request]⟩

/-- C6: `push_back(sig)` on a queue whose world is set. With the kernel world unlocked and
a non-null emitter, `sig` is emitted exactly once on its emitter, with the arguments
`(obj_a, obj_b)` when `obj_b` is non-null and `(obj_a)` otherwise, and the queue is unchanged.
With the kernel world locked nothing is emitted and `sig` is appended at the back, so the
queue is one longer. -/
theorem push_back_emits_or_queues (q : Box2dCollisionCallbackQueue) (w : b2World)
    (hw : q.world = some w) (sig : GodotSignalCaller) :
    (w.locked = false → ∀ emitter : Nat, sig.obj_emitter = some emitter →
      q.push_back sig =
        some (q, [⟨emitter, sig.signal_name,
          if sig.obj_b.isSome then [sig.obj_a, sig.obj_b] else [sig.obj_a]⟩])) ∧
    (w.locked = true →
      ∃ q1 : Box2dCollisionCallbackQueue, q.push_back sig = some (q1, []) ∧
        q1.collision_callback_queue = q.collision_callback_queue ++ [sig] ∧
        q1.collision_callback_queue.length = q.collision_callback_queue.length + 1 ∧
        q1.world = q.world) := by
  constructor
  · intro hl emitter he
    unfold Box2dCollisionCallbackQueue.push_back
    rw [hw]
    simp only [hl, he]
    by_cases hb : sig.obj_b.isSome = true <;> simp [hb]
  · intro hl
    refine ⟨{ q with collision_callback_queue := q.collision_callback_queue ++ [sig] },
      ?_, rfl, by simp, rfl⟩
    unfold Box2dCollisionCallbackQueue.push_back
    rw [hw]
    simp only [hl, if_true]

/-- C6 at an unlocked world: a request with two objects is emitted at once with both
arguments and the queue stays empty. -/
theorem push_back_emits_or_queues_witness :
    ({ world := some unlocked_world } : Box2dCollisionCallbackQueue).world = some unlocked_world ∧
    ({ world := some unlocked_world } : Box2dCollisionCallbackQueue).push_back
        fixture_entered_request =
      some ({ world := some unlocked_world },
        [⟨1, "body_fixture_entered", [some 3, some 4]⟩]) :=
  ⟨rfl, (push_back_emits_or_queues { world := some unlocked_world } unlocked_world rfl
    fixture_entered_request).1 rfl 1 rfl⟩

/-! ## Body lifecycle -/

theorem update_mass_world_node (r : Bool) (me : Box2DPhysicsBody) :
    (update_mass r me).world_node = me.world_node := by
  unfold update_mass
  split
  · split_ifs <;> rfl
  · rfl

theorem update_mass_body_isSome (r : Bool) (me : Box2DPhysicsBody) :
    (update_mass r me).body.isSome = me.body.isSome := by
  unfold update_mass
  split
  · next b hb => split_ifs <;> simp [hb]
  · rfl

theorem destroy_without_body (self : Nat) (s : Scene) (h : (s.nodes self).body = none) :
    destroy_b2Body self s = (false, s) := by
  unfold destroy_b2Body
  simp only [h]

theorem destroy_with_body (self : Nat) (s : Scene) (b : b2Body) (w : Nat)
    (hb : (s.nodes self).body = some b) (hw : (s.nodes self).world_node = some w)
    (hk : has_kernel s w) :
    (destroy_b2Body self s).1 = true ∧
    ((destroy_b2Body self s).2.nodes self).body = none ∧
    ((destroy_b2Body self s).2.nodes self).world_node = none ∧
    ((destroy_b2Body self s).2.worlds w).bodies = set_erase self (s.worlds w).bodies := by
  unfold has_kernel at hk
  obtain ⟨kw, hkw⟩ := Option.isSome_iff_exists.mp hk
  unfold destroy_b2Body
  simp only [hb, hw, hkw]
  simp

theorem destroy_has_kernel (self : Nat) (s : Scene) (w : Nat) (hk : has_kernel s w) :
    has_kernel (destroy_b2Body self s).2 w := by
  unfold destroy_b2Body
  cases hb : (s.nodes self).body with
  | none => simpa only [hb] using hk
  | some b =>
    cases hw : (s.nodes self).world_node with
    | none => simpa only [hb, hw] using hk
    | some w1 =>
      cases hkw : (s.worlds w1).world with
      | none => simpa only [hb, hw, hkw] using hk
      | some kw =>
        simp only [hb, hw, hkw]
        unfold has_kernel
        by_cases e : w = w1
        · subst e; simp
        · simpa [Function.update_noteq e] using hk

theorem create_refused (env : Env) (self : Nat) (s : Scene)
    (h : ¬ ((s.nodes self).world_node.isSome = true ∧ (s.nodes self).body = none ∧
      ∀ w, (s.nodes self).world_node = some w → has_kernel s w)) :
    create_b2Body env self s = (false, s) := by
  unfold create_b2Body
  cases hw : (s.nodes self).world_node with
  | none => simp only [hw]
  | some w =>
    cases hb : (s.nodes self).body with
    | some b => simp only [hw, hb]
    | none =>
      cases hkw : (s.worlds w).world with
      | none => simp only [hw, hb, hkw]
      | some kw =>
        exfalso
        apply h
        refine ⟨by simp [hw], hb, ?_⟩
        intro w1 hw1
        rw [hw] at hw1
        cases hw1
        simp [has_kernel, hkw]

theorem create_done (env : Env) (self : Nat) (s : Scene) (w : Nat)
    (hw : (s.nodes self).world_node = some w) (hb : (s.nodes self).body = none)
    (hk : has_kernel s w) :
    (create_b2Body env self s).1 = true ∧
    ((create_b2Body env self s).2.nodes self).body.isSome = true ∧
    ((create_b2Body env self s).2.nodes self).world_node = some w ∧
    ((create_b2Body env self s).2.worlds w).bodies = set_insert self (s.worlds w).bodies := by
  unfold has_kernel at hk
  obtain ⟨kw, hkw⟩ := Option.isSome_iff_exists.mp hk
  unfold create_b2Body
  simp only [hw, hb, hkw]
  simp [update_mass_body_isSome, update_mass_world_node]

theorem create_has_kernel (env : Env) (self : Nat) (s : Scene) (w : Nat) (hk : has_kernel s w) :
    has_kernel (create_b2Body env self s).2 w := by
  unfold create_b2Body
  cases hw : (s.nodes self).world_node with
  | none => simpa only [hw] using hk
  | some w1 =>
    cases hb : (s.nodes self).body with
    | some b => simpa only [hw, hb] using hk
    | none =>
      cases hkw : (s.worlds w1).world with
      | none => simpa only [hw, hb, hkw] using hk
      | some kw =>
        simp only [hw, hb, hkw]
        unfold has_kernel
        by_cases e : w = w1
        · subst e; simp
        · simpa [Function.update_noteq e] using hk

theorem modify_nodes_self (s : Scene) (self : Nat) (f : Box2DPhysicsBody → Box2DPhysicsBody) :
    (s.modify self f).nodes self = f (s.nodes self) := by
  simp [Scene.modify]

theorem modify_worlds (s : Scene) (self : Nat) (f : Box2DPhysicsBody → Box2DPhysicsBody) :
    (s.modify self f).worlds = s.worlds := rfl

theorem modify_has_kernel (s : Scene) (self : Nat) (f : Box2DPhysicsBody → Box2DPhysicsBody)
    (w : Nat) : has_kernel (s.modify self f) w ↔ has_kernel s w := Iff.rfl

theorem erase_from_filterers_keeps (self : Nat) :
    ∀ (l : List Nat) (nodes : Nat → Box2DPhysicsBody) (j : Nat),
      (erase_from_filterers self nodes l j).body = (nodes j).body ∧
      (erase_from_filterers self nodes l j).world_node = (nodes j).world_node
  | [], _, _ => ⟨rfl, rfl⟩
  | f :: rest, nodes, j => by
    unfold erase_from_filterers
    have h := erase_from_filterers_keeps self rest
      (Function.update nodes f { nodes f with filtered := set_erase self (nodes f).filtered }) j
    rw [h.1, h.2]
    by_cases e : j = f
    · subst e; simp
    · simp [Function.update_noteq e]

/-- Destroying the body of a consistently attached body, when it has a cached world (or
unconditionally), leaves it with neither kernel body nor cached world. -/
theorem detach_clears (self : Nat) (s : Scene) (hl : linked s self) :
    ((destroy_b2Body self s).2.nodes self).body = none ∧
    ((destroy_b2Body self s).2.nodes self).world_node = none := by
  obtain ⟨hbw, hkw⟩ := hl
  cases hb : (s.nodes self).body with
  | none =>
    rw [destroy_without_body self s hb]
    refine ⟨hb, ?_⟩
    rw [hb] at hbw
    cases hw : (s.nodes self).world_node with
    | none => rfl
    | some w => rw [hw] at hbw; simp at hbw
  | some b =>
    rw [hb] at hbw
    cases hw : (s.nodes self).world_node with
    | none => rw [hw] at hbw; simp at hbw
    | some w =>
      have h := destroy_with_body self s b w hb hw (hkw w hw)
      exact ⟨h.2.1, h.2.2.1⟩

theorem guarded_detach_clears (self : Nat) (s : Scene) (hl : linked s self) :
    ((if (s.nodes self).world_node.isSome then (destroy_b2Body self s).2 else s).nodes self).body
      = none ∧
    ((if (s.nodes self).world_node.isSome then (destroy_b2Body self s).2 else s).nodes
      self).world_node = none := by
  by_cases hw : (s.nodes self).world_node.isSome = true
  · rw [if_pos hw]; exact detach_clears self s hl
  · rw [if_neg hw]
    have hw0 : (s.nodes self).world_node.isSome = false := by simpa using hw
    have hb : (s.nodes self).body.isSome = false := by rw [hl.1, hw0]
    cases hbb : (s.nodes self).body with
    | some b => rw [hbb] at hb; simp at hb
    | none =>
      cases hww : (s.nodes self).world_node with
      | some w => rw [hww] at hw0; simp at hw0
      | none => exact ⟨rfl, rfl⟩

theorem guarded_detach_has_kernel (self : Nat) (s : Scene) (w : Nat) (hk : has_kernel s w) :
    has_kernel (if (s.nodes self).world_node.isSome then (destroy_b2Body self s).2 else s) w := by
  split
  · exact destroy_has_kernel self s w hk
  · exact hk

theorem linked_modify (s : Scene) (self : Nat) (f : Box2DPhysicsBody → Box2DPhysicsBody)
    (hb : ∀ me, (f me).body = me.body) (hw : ∀ me, (f me).world_node = me.world_node) :
    linked (s.modify self f) self ↔ linked s self := by
  unfold linked
  rw [modify_nodes_self, hb, hw]
  exact Iff.rfl

theorem attach_step (env : Env) (self : Nat) (s2 : Scene) (new_world : Option Nat)
    (hb : (s2.nodes self).body = none)
    (hk : ∀ w, new_world = some w → has_kernel s2 w) :
    linked (if new_world.isSome then
        (create_b2Body env self (s2.modify self (fun me => { me with world_node := new_world }))).2
      else s2.modify self (fun me => { me with world_node := new_world })) self ∧
    ((if new_world.isSome then
        (create_b2Body env self (s2.modify self (fun me => { me with world_node := new_world }))).2
      else s2.modify self (fun me => { me with world_node := new_world })).nodes self).body.isSome
      = new_world.isSome := by
  cases new_world with
  | none =>
    simp only [Option.isSome_none, Bool.false_eq_true, if_false]
    unfold linked
    rw [modify_nodes_self]
    simp [hb]
  | some w =>
    simp only [Option.isSome_some, if_true]
    have h3w : ((s2.modify self (fun me => { me with world_node := some w })).nodes
        self).world_node = some w := by rw [modify_nodes_self]
    have h3b : ((s2.modify self (fun me => { me with world_node := some w })).nodes
        self).body = none := by rw [modify_nodes_self]; exact hb
    have h3k : has_kernel (s2.modify self (fun me => { me with world_node := some w })) w :=
      hk w rfl
    have h := create_done env self _ w h3w h3b h3k
    refine ⟨⟨?_, ?_⟩, h.2.1⟩
    · rw [h.2.1, h.2.2.1]; rfl
    · intro w1 hw1
      rw [h.2.2.1] at hw1
      cases hw1
      exact create_has_kernel env self _ w h3k

/-- What `NOTIFICATION_ENTER_TREE` does to a consistently attached body when the world found
(if any) has a kernel world: it stays consistently attached and has a kernel body exactly
when a world was found. -/
theorem enter_tree_step (env : Env) (self : Nat) (s : Scene) (new_world : Option Nat)
    (debug_hint : Bool) (hl : linked s self)
    (hk : ∀ w, new_world = some w → has_kernel s w) :
    linked (_notification env self s (.ENTER_TREE new_world debug_hint)) self ∧
    ((_notification env self s (.ENTER_TREE new_world debug_hint)).nodes self).body.isSome
      = new_world.isSome := by
  have hl1 : linked (s.modify self
      (fun me => { me with last_valid_xform := get_box2dworld_transform me })) self :=
    by refine (linked_modify s self _ ?_ ?_).2 hl <;> intro _ <;> rfl
  generalize hs1 : s.modify self
      (fun me => { me with last_valid_xform := get_box2dworld_transform me }) = s1 at hl1
  have hk1 : ∀ w, new_world = some w → has_kernel s1 w := by
    intro w hw; rw [← hs1]; exact hk w hw
  have key : ∀ s4 : Scene, (linked s4 self ∧ (s4.nodes self).body.isSome = new_world.isSome) →
      (linked (if debug_hint then s4.modify self (fun me => { me with process_internal := true })
          else s4) self ∧
        ((if debug_hint then s4.modify self (fun me => { me with process_internal := true })
          else s4).nodes self).body.isSome = new_world.isSome) := by
    intro s4 h4
    cases debug_hint with
    | false => exact h4
    | true =>
      simp only [if_true]
      refine ⟨?_, ?_⟩
      · refine (linked_modify s4 self _ ?_ ?_).2 h4.1 <;> intro _ <;> rfl
      · rw [modify_nodes_self]; exact h4.2
  unfold _notification
  simp only [hs1]
  apply key
  by_cases hne : new_world ≠ (s1.nodes self).world_node
  · rw [if_pos hne]
    have hd := guarded_detach_clears self s1 hl1
    exact attach_step env self _ new_world hd.1
      (fun w hw => guarded_detach_has_kernel self s1 w (hk1 w hw))
  · rw [if_neg hne]
    have he : new_world = (s1.nodes self).world_node := by simpa using hne
    exact ⟨hl1, by rw [hl1.1, he]⟩

/-- What `NOTIFICATION_EXIT_TREE` does to a consistently attached body: it stays
consistently attached and has no kernel body. -/
theorem exit_tree_step (env : Env) (self : Nat) (s : Scene) (hl : linked s self) :
    linked (_notification env self s .EXIT_TREE) self ∧
    ((_notification env self s .EXIT_TREE).nodes self).body = none := by
  have hl1 : linked (s.modify self (fun me => { me with process_internal := false })) self :=
    by refine (linked_modify s self _ ?_ ?_).2 hl <;> intro _ <;> rfl
  unfold _notification
  have hd := guarded_detach_clears self _ hl1
  refine ⟨⟨?_, ?_⟩, hd.1⟩
  · rw [hd.1, hd.2]; rfl
  · intro w hw
    simp only [hd.2] at hw
    cases hw

/-- What `NOTIFICATION_PREDELETE` does to a consistently attached body: it stays
consistently attached and has no kernel body. -/
theorem predelete_step (env : Env) (self : Nat) (s : Scene) (hl : linked s self) :
    linked (_notification env self s .PREDELETE) self ∧
    ((_notification env self s .PREDELETE).nodes self).body = none := by
  have hl2 : linked
      { worlds := s.worlds
        nodes := erase_from_filterers self s.nodes (s.nodes self).filtering_me
        joint_calls := s.joint_calls ++ notify_joints_predelete self (s.nodes self).joints }
      self := by
    have hk := erase_from_filterers_keeps self (s.nodes self).filtering_me s.nodes self
    unfold linked
    simp only [hk.1, hk.2]
    exact hl
  unfold _notification
  have hd := detach_clears self _ hl2
  refine ⟨⟨?_, ?_⟩, hd.1⟩
  · rw [hd.1, hd.2]; rfl
  · intro w hw
    simp only [hd.2] at hw
    cases hw

theorem notification_has_kernel (env : Env) (self : Nat) (s : Scene) (ev : Notification)
    (w : Nat) (hk : has_kernel s w) : has_kernel (_notification env self s ev) w := by
  cases ev with
  | PREDELETE =>
    unfold _notification
    exact destroy_has_kernel self _ w hk
  | ENTER_TREE new_world debug_hint =>
    unfold _notification
    have h4 : has_kernel
        (if new_world ≠ ((s.modify self
            (fun me => { me with last_valid_xform := get_box2dworld_transform me })).nodes
              self).world_node then
          if new_world.isSome then
            (create_b2Body env self
              ((if ((s.modify self
                  (fun me => { me with last_valid_xform := get_box2dworld_transform me })).nodes
                    self).world_node.isSome then
                (destroy_b2Body self (s.modify self
                  (fun me => { me with last_valid_xform := get_box2dworld_transform me }))).2
              else s.modify self
                (fun me => { me with last_valid_xform := get_box2dworld_transform me })).modify
                  self (fun me => { me with world_node := new_world }))).2
          else
            (if ((s.modify self
                (fun me => { me with last_valid_xform := get_box2dworld_transform me })).nodes
                  self).world_node.isSome then
              (destroy_b2Body self (s.modify self
                (fun me => { me with last_valid_xform := get_box2dworld_transform me }))).2
            else s.modify self
              (fun me => { me with last_valid_xform := get_box2dworld_transform me })).modify
                self (fun me => { me with world_node := new_world })
        else s.modify self
          (fun me => { me with last_valid_xform := get_box2dworld_transform me })) w := by
      have hg := guarded_detach_has_kernel self (s.modify self
        (fun me => { me with last_valid_xform := get_box2dworld_transform me })) w hk
      split
      · split
        · exact create_has_kernel env self _ w hg
        · exact hg
      · exact hk
    cases debug_hint with
    | false => exact h4
    | true => exact h4
  | EXIT_TREE =>
    unfold _notification
    exact guarded_detach_has_kernel self _ w hk


theorem linked_of_fresh (s : Scene) (self : Nat)
    (h : (s.nodes self).body = none ∧ (s.nodes self).world_node = none) : linked s self := by
  unfold linked
  rw [h.1, h.2]
  exact ⟨rfl, fun w hw => by cases hw⟩

theorem run_notifications_cons (env : Env) (self : Nat) (st : Scene × Bool) (ev : Notification)
    (rest : List Notification) :
    run_notifications env self st (ev :: rest) =
      run_notifications env self (_notification env self st.1 ev, ev.in_world st.2) rest := rfl

theorem run_notifications_append (env : Env) (self : Nat) (st : Scene × Bool)
    (events : List Notification) (ev : Notification) :
    run_notifications env self st (events ++ [ev]) =
      (_notification env self (run_notifications env self st events).1 ev,
        ev.in_world (run_notifications env self st events).2) := by
  unfold run_notifications
  rw [List.foldl_append]
  rfl

theorem run_notifications_linked (env : Env) (self : Nat) :
    ∀ (events : List Notification) (s : Scene) (g : Bool), linked s self →
      (∀ w dh, Notification.ENTER_TREE (some w) dh ∈ events → has_kernel s w) →
      linked (run_notifications env self (s, g) events).1 self ∧
        ∀ w, has_kernel s w → has_kernel (run_notifications env self (s, g) events).1 w
  | [], s, g, hl, _ => ⟨hl, fun _ h => h⟩
  | ev :: rest, s, g, hl, hk => by
    rw [run_notifications_cons]
    have hstep : linked (_notification env self s ev) self := by
      cases ev with
      | PREDELETE => exact (predelete_step env self s hl).1
      | ENTER_TREE new_world debug_hint =>
        refine (enter_tree_step env self s new_world debug_hint hl ?_).1
        intro w hw
        subst hw
        exact hk w debug_hint (List.mem_cons_self _ _)
      | EXIT_TREE => exact (exit_tree_step env self s hl).1
    have hrest := run_notifications_linked env self rest (_notification env self s ev)
      (ev.in_world g) hstep
      (fun w dh hm => notification_has_kernel env self s ev w
        (hk w dh (List.mem_cons_of_mem _ hm)))
    exact ⟨hrest.1, fun w hw => hrest.2 w (notification_has_kernel env self s ev w hw)⟩

/-- C7, amended: for a body that starts with neither kernel body nor cached world, and every
sequence of `ENTER_TREE`, `EXIT_TREE` and `PREDELETE` notifications in which each world found
by `find_world` has a kernel world: after each handler a non-null kernel-body handle implies
that the body is in the tree under a resolvable world; after `ENTER_TREE` and `EXIT_TREE` the
handle is non-null exactly when the body is in the tree under a resolvable world; and after
`PREDELETE` the handle is null. -/
theorem handle_follows_world_after_enter_and_exit (env : Env) (self : Nat) (s : Scene)
    (events : List Notification) (ev : Notification)
    (hfresh : (s.nodes self).body = none ∧ (s.nodes self).world_node = none)
    (hk : ∀ w dh, Notification.ENTER_TREE (some w) dh ∈ events ++ [ev] → has_kernel s w) :
    (((run_notifications env self (s, false) (events ++ [ev])).1.nodes self).body.isSome = true →
      (run_notifications env self (s, false) (events ++ [ev])).2 = true) ∧
    (ev ≠ .PREDELETE →
      ((run_notifications env self (s, false) (events ++ [ev])).1.nodes self).body.isSome =
        (run_notifications env self (s, false) (events ++ [ev])).2) ∧
    (ev = .PREDELETE →
      ((run_notifications env self (s, false) (events ++ [ev])).1.nodes self).body = none) := by
  have hpre := run_notifications_linked env self events s false (linked_of_fresh s self hfresh)
    (fun w dh hm => hk w dh (List.mem_append_left _ hm))
  rw [run_notifications_append]
  cases ev with
  | PREDELETE =>
    have h := (predelete_step env self _ hpre.1).2
    refine ⟨?_, fun hne => absurd rfl hne, fun _ => h⟩
    intro hb
    simp only [h] at hb
    cases hb
  | ENTER_TREE new_world debug_hint =>
    have h := (enter_tree_step env self _ new_world debug_hint hpre.1 (by
      intro w hw
      subst hw
      exact hpre.2 w (hk w debug_hint (List.mem_append_right _ (List.mem_singleton_self _))))).2
    exact ⟨fun hb => by rw [h] at hb; exact hb, fun _ => h, fun hc => by cases hc⟩
  | EXIT_TREE =>
    have h := (exit_tree_step env self _ hpre.1).2
    refine ⟨?_, fun _ => by simp only [h]; rfl, fun hc => by cases hc⟩
    intro hb
    simp only [h] at hb
    cases hb


/-- C7 at a body that enters the tree under world 1 and leaves it again. -/
theorem handle_follows_world_after_enter_and_exit_witness :
    ((live_scene.nodes 0).body = none ∧ (live_scene.nodes 0).world_node = none) ∧
    ((run_notifications plain_env 0 (live_scene, false)
        ([.ENTER_TREE (some 1) false] ++ [.EXIT_TREE])).1.nodes 0).body.isSome =
      (run_notifications plain_env 0 (live_scene, false)
        ([.ENTER_TREE (some 1) false] ++ [.EXIT_TREE])).2 :=
  ⟨⟨rfl, rfl⟩,
    (handle_follows_world_after_enter_and_exit plain_env 0 live_scene
      [.ENTER_TREE (some 1) false] .EXIT_TREE ⟨rfl, rfl⟩ (fun _ _ _ => rfl)).2.1
      (fun h => by cases h)⟩

/-- C7 fails as stated. A body entering the tree under a world that has no kernel world
gets no kernel body although `find_world` resolves; and a body with a kernel body that
handles `NOTIFICATION_PREDELETE` loses it while still in the tree under its world. -/
theorem handle_can_be_null_under_resolvable_world :
    (((run_notifications plain_env 0 (dormant_scene, false)
        [.ENTER_TREE (some 1) false]).1.nodes 0).body.isSome = false ∧
      (run_notifications plain_env 0 (dormant_scene, false)
        [.ENTER_TREE (some 1) false]).2 = true) ∧
    (((run_notifications plain_env 0 (live_scene, false)
        [.ENTER_TREE (some 1) false]).1.nodes 0).body.isSome = true ∧
      ((run_notifications plain_env 0 (live_scene, false)
        [.ENTER_TREE (some 1) false, .PREDELETE]).1.nodes 0).body.isSome = false ∧
      (run_notifications plain_env 0 (live_scene, false)
        [.ENTER_TREE (some 1) false, .PREDELETE]).2 = true) := by
  decide


/-- C8, evaluated at a body without kernel body that caches a world. Body 0 entered the tree
under world 1 while that world had no kernel world, so it holds a cached world but no kernel
body; `NOTIFICATION_EXIT_TREE` then leaves the cached world in place, because `world_node` is
cleared only inside `destroy_b2Body`, behind `if (body)`. The stale root has an effect: once
world 1 has a kernel world, `NOTIFICATION_ENTER_TREE` under world 1 finds the root unchanged
and creates no kernel body, where a body that never cached the world gets one. -/
theorem exit_tree_can_leave_cached_world :
    ((_notification plain_env 0 dormant_scene (.ENTER_TREE (some 1) false)).nodes 0).body
      = none ∧
    ((_notification plain_env 0 dormant_scene (.ENTER_TREE (some 1) false)).nodes 0).world_node
      = some 1 ∧
    ((_notification plain_env 0
      (_notification plain_env 0 dormant_scene (.ENTER_TREE (some 1) false))
      .EXIT_TREE).nodes 0).world_node = some 1 ∧
    (revived_scene.worlds 1).world.isSome = true ∧
    ((_notification plain_env 0 revived_scene (.ENTER_TREE (some 1) false)).nodes 0).body
      = none ∧
    ((_notification plain_env 0 live_scene (.ENTER_TREE (some 1) false)).nodes 0).body.isSome
      = true := by
  decide

/-- What `NOTIFICATION_EXIT_TREE` does establish: in every state in which a kernel body, if
present, belongs to a non-null cached world that has a kernel world, the kernel-body handle
is null afterwards; and the cached world is null afterwards whenever a kernel body was
present or the cached world was already null. -/
theorem exit_tree_clears_handle_and_root (env : Env) (self : Nat) (s : Scene)
    (h : ∀ b, (s.nodes self).body = some b →
      ∃ w, (s.nodes self).world_node = some w ∧ has_kernel s w) :
    ((_notification env self s .EXIT_TREE).nodes self).body = none ∧
    (((s.nodes self).body.isSome = true ∨ (s.nodes self).world_node = none) →
      ((_notification env self s .EXIT_TREE).nodes self).world_node = none) := by
  unfold _notification
  have h1b : ((s.modify self (fun me => { me with process_internal := false })).nodes self).body
      = (s.nodes self).body := by rw [modify_nodes_self]
  have h1w : ((s.modify self (fun me => { me with process_internal := false })).nodes
      self).world_node = (s.nodes self).world_node := by rw [modify_nodes_self]
  have h1k : ∀ w, has_kernel s w →
      has_kernel (s.modify self (fun me => { me with process_internal := false })) w :=
    fun _ hw => hw
  generalize s.modify self (fun me => { me with process_internal := false }) = s1
    at h1b h1w h1k
  cases hb : (s.nodes self).body with
  | none =>
    have hb1 : (s1.nodes self).body = none := by rw [h1b, hb]
    cases hw : (s.nodes self).world_node with
    | none =>
      have hw1 : (s1.nodes self).world_node = none := by rw [h1w, hw]
      simp only [hw1, Option.isSome_none, Bool.false_eq_true, if_false]
      exact ⟨hb1, fun _ => trivial⟩
    | some w =>
      have hw1 : (s1.nodes self).world_node = some w := by rw [h1w, hw]
      simp only [hw1, Option.isSome_some, if_true]
      rw [destroy_without_body self s1 hb1]
      refine ⟨hb1, ?_⟩
      intro hc
      rcases hc with hc | hc
      · simp at hc
      · cases hc
  | some b =>
    obtain ⟨w, hw, hk⟩ := h b hb
    have hb1 : (s1.nodes self).body = some b := by rw [h1b, hb]
    have hw1 : (s1.nodes self).world_node = some w := by rw [h1w, hw]
    simp only [hw1, Option.isSome_some, if_true]
    have hd := destroy_with_body self s1 b w hb1 hw1 (h1k w hk)
    exact ⟨hd.2.1, fun _ => hd.2.2.1⟩


/-- A body that lives in world 1 has neither kernel body nor cached world after
`NOTIFICATION_EXIT_TREE`. -/
theorem exit_tree_clears_handle_and_root_witness :
    (∀ b, (attached_scene.nodes 0).body = some b →
      ∃ w, (attached_scene.nodes 0).world_node = some w ∧ has_kernel attached_scene w) ∧
    ((_notification plain_env 0 attached_scene .EXIT_TREE).nodes 0).body = none ∧
    ((_notification plain_env 0 attached_scene .EXIT_TREE).nodes 0).world_node = none := by
  have hyp : ∀ b, (attached_scene.nodes 0).body = some b →
      ∃ w, (attached_scene.nodes 0).world_node = some w ∧ has_kernel attached_scene w :=
    fun _ _ => ⟨1, rfl, rfl⟩
  have h := exit_tree_clears_handle_and_root plain_env 0 attached_scene hyp
  exact ⟨hyp, h.1, h.2 (Or.inl rfl)⟩

/-- C9: `create_b2Body` returns true exactly when it created a kernel body (the handle was
null and is non-null afterwards), and that happens exactly when `world_node` is non-null,
that world has a kernel world and the handle was null; in every other case it returns false
and leaves the whole scene (handle, cached definition, every world's body set) as it was.
`destroy_b2Body` on a body without kernel body returns false and leaves the scene as it
was. -/
theorem create_and_destroy_refuse_without_effect (env : Env) (self : Nat) (s : Scene) :
    ((create_b2Body env self s).1 = true ↔
      ((s.nodes self).body = none ∧
        ((create_b2Body env self s).2.nodes self).body.isSome = true)) ∧
    (((s.nodes self).body = none ∧
        ((create_b2Body env self s).2.nodes self).body.isSome = true) ↔
      ((∃ w, (s.nodes self).world_node = some w ∧ has_kernel s w) ∧
        (s.nodes self).body = none)) ∧
    (¬ ((∃ w, (s.nodes self).world_node = some w ∧ has_kernel s w) ∧
        (s.nodes self).body = none) →
      create_b2Body env self s = (false, s)) ∧
    ((s.nodes self).body = none → destroy_b2Body self s = (false, s)) := by
  have hrefuse : ¬ ((∃ w, (s.nodes self).world_node = some w ∧ has_kernel s w) ∧
      (s.nodes self).body = none) → create_b2Body env self s = (false, s) := by
    intro hc
    apply create_refused
    rintro ⟨hw, hb, hk⟩
    obtain ⟨w, hw1⟩ := Option.isSome_iff_exists.mp hw
    exact hc ⟨⟨w, hw1, hk w hw1⟩, hb⟩
  by_cases hc : (∃ w, (s.nodes self).world_node = some w ∧ has_kernel s w) ∧
      (s.nodes self).body = none
  · obtain ⟨⟨w, hw, hk⟩, hb⟩ := hc
    have hd := create_done env self s w hw hb hk
    exact ⟨⟨fun _ => ⟨hb, hd.2.1⟩, fun _ => hd.1⟩,
      ⟨fun _ => ⟨⟨w, hw, hk⟩, hb⟩, fun _ => ⟨hb, hd.2.1⟩⟩,
      hrefuse, destroy_without_body self s⟩
  · have hr := hrefuse hc
    have hnot : ¬ ((s.nodes self).body = none ∧
        ((create_b2Body env self s).2.nodes self).body.isSome = true) := by
      rw [hr]
      rintro ⟨hb, hs⟩
      rw [hb] at hs
      cases hs
    refine ⟨⟨fun h => ?_, fun h => absurd h hnot⟩,
      ⟨fun h => absurd h hnot, fun h => absurd h hc⟩, hrefuse, destroy_without_body self s⟩
    rw [hr] at h
    cases h

/-! ## Collision exceptions -/

theorem mem_set_insert (x y : Nat) (l : List Nat) : y ∈ set_insert x l ↔ y = x ∨ y ∈ l := by
  unfold set_insert
  split
  · next h =>
    constructor
    · exact fun hy => Or.inr hy
    · rintro (rfl | hy)
      · exact h
      · exact hy
  · exact List.mem_orderedInsert _

theorem nodup_set_insert (x : Nat) (l : List Nat) (h : l.Nodup) : (set_insert x l).Nodup := by
  unfold set_insert
  split
  · exact h
  · next hx =>
    exact ((List.perm_orderedInsert _ x l).nodup_iff).2 (List.nodup_cons.2 ⟨hx, h⟩)

theorem mem_set_erase (x y : Nat) (l : List Nat) (h : l.Nodup) :
    y ∈ set_erase x l ↔ y ≠ x ∧ y ∈ l :=
  List.Nodup.mem_erase_iff h

theorem nodup_set_erase (x : Nat) (l : List Nat) (h : l.Nodup) : (set_erase x l).Nodup :=
  List.Nodup.erase x h

theorem add_filtered (self body a : Nat) (s : Scene) :
    ((add_collision_exception_with self (.body body) s).nodes a).filtered =
      if a = self then set_insert body (s.nodes a).filtered else (s.nodes a).filtered := by
  unfold add_collision_exception_with
  by_cases h1 : a = body <;> by_cases h2 : a = self <;>
    simp [Function.update_apply, h1, h2] <;> simp_all

theorem add_filtering_me (self body b : Nat) (s : Scene) :
    ((add_collision_exception_with self (.body body) s).nodes b).filtering_me =
      if b = body then set_insert self (s.nodes b).filtering_me
      else (s.nodes b).filtering_me := by
  unfold add_collision_exception_with
  by_cases h1 : b = body <;> by_cases h2 : b = self <;>
    simp [Function.update_apply, h1, h2] <;> simp_all

theorem remove_filtered (self body a : Nat) (s : Scene) :
    ((remove_collision_exception_with self (.body body) s).nodes a).filtered =
      if a = self then set_erase body (s.nodes a).filtered else (s.nodes a).filtered := by
  unfold remove_collision_exception_with
  by_cases h1 : a = body <;> by_cases h2 : a = self <;>
    simp [Function.update_apply, h1, h2] <;> simp_all

theorem remove_filtering_me (self body b : Nat) (s : Scene) :
    ((remove_collision_exception_with self (.body body) s).nodes b).filtering_me =
      if b = body then set_erase self (s.nodes b).filtering_me
      else (s.nodes b).filtering_me := by
  unfold remove_collision_exception_with
  by_cases h1 : b = body <;> by_cases h2 : b = self <;>
    simp [Function.update_apply, h1, h2] <;> simp_all

theorem apply_exceptions_mirrored (s : Scene) (c : ExceptionCall)
    (h : exceptions_mirrored s) : exceptions_mirrored (c.apply s) := by
  cases c with
  | add self p_node =>
    cases p_node with
    | null => exact h
    | other id => exact h
    | body body =>
      refine ⟨fun a => ⟨?_, ?_⟩, fun a b => ?_⟩
      · show ((add_collision_exception_with self (.body body) s).nodes a).filtered.Nodup
        rw [add_filtered]
        split
        · exact nodup_set_insert _ _ (h.1 a).1
        · exact (h.1 a).1
      · show ((add_collision_exception_with self (.body body) s).nodes a).filtering_me.Nodup
        rw [add_filtering_me]
        split
        · exact nodup_set_insert _ _ (h.1 a).2
        · exact (h.1 a).2
      · show b ∈ ((add_collision_exception_with self (.body body) s).nodes a).filtered ↔
          a ∈ ((add_collision_exception_with self (.body body) s).nodes b).filtering_me
        rw [add_filtered, add_filtering_me]
        have hm := h.2 a b
        by_cases h1 : a = self <;> by_cases h2 : b = body <;>
          simp [h1, h2, mem_set_insert] <;> simp_all
  | remove self p_node =>
    cases p_node with
    | null => exact h
    | other id => exact h
    | body body =>
      refine ⟨fun a => ⟨?_, ?_⟩, fun a b => ?_⟩
      · show ((remove_collision_exception_with self (.body body) s).nodes a).filtered.Nodup
        rw [remove_filtered]
        split
        · exact nodup_set_erase _ _ (h.1 a).1
        · exact (h.1 a).1
      · show ((remove_collision_exception_with self (.body body) s).nodes a).filtering_me.Nodup
        rw [remove_filtering_me]
        split
        · exact nodup_set_erase _ _ (h.1 a).2
        · exact (h.1 a).2
      · show b ∈ ((remove_collision_exception_with self (.body body) s).nodes a).filtered ↔
          a ∈ ((remove_collision_exception_with self (.body body) s).nodes b).filtering_me
        rw [remove_filtered, remove_filtering_me]
        have hm := h.2 a b
        have hn1 := (h.1 a).1
        have hn2 := (h.1 b).2
        by_cases h1 : a = self
        · subst h1
          by_cases h2 : b = body
          · subst h2
            rw [if_pos rfl, if_pos rfl, mem_set_erase _ _ _ hn1, mem_set_erase _ _ _ hn2]
            simp
          · rw [if_pos rfl, if_neg h2, mem_set_erase _ _ _ hn1]
            simp [h2, hm]
        · by_cases h2 : b = body
          · subst h2
            rw [if_neg h1, if_pos rfl, mem_set_erase _ _ _ hn2]
            simp [h1, hm]
          · rw [if_neg h1, if_neg h2]
            exact hm

theorem run_exceptions_mirrored (calls : List ExceptionCall) :
    ∀ s : Scene, exceptions_mirrored s → exceptions_mirrored (run_exception_calls s calls) := by
  induction calls with
  | nil => intro s h; exact h
  | cons c rest ih =>
    intro s h
    exact ih (c.apply s) (apply_exceptions_mirrored s c h)

theorem mirrored_of_no_exceptions (s : Scene) (h : no_exceptions s) : exceptions_mirrored s := by
  refine ⟨fun a => ?_, fun a b => ?_⟩
  · rw [(h a).1, (h a).2]; exact ⟨List.nodup_nil, List.nodup_nil⟩
  · rw [(h a).1, (h b).2]; simp

/-- C10 fails as stated: after body 0 adds an exception with body 1, body 1 is among the
exceptions of body 0, but body 0 is not among the exceptions of body 1. -/
theorem exceptions_are_not_symmetric :
    1 ∈ get_collision_exceptions 0 (run_exception_calls dormant_scene [.add 0 (.body 1)]) ∧
    0 ∉ get_collision_exceptions 1 (run_exception_calls dormant_scene [.add 0 (.body 1)]) := by
  decide

/-- C10, amended: starting from bodies without exceptions, after every sequence of
`add_collision_exception_with` and `remove_collision_exception_with` calls (with any
arguments), `b` appears in `a.get_collision_exceptions()` exactly when `a` appears in the
`filtering_me` set of `b`. -/
theorem exceptions_mirror_filtering_me (s : Scene) (hs : no_exceptions s)
    (calls : List ExceptionCall) (a b : Nat) :
    b ∈ get_collision_exceptions a (run_exception_calls s calls) ↔
      a ∈ ((run_exception_calls s calls).nodes b).filtering_me :=
  (run_exceptions_mirrored calls s (mirrored_of_no_exceptions s hs)).2 a b

/-- C10 at two bodies: after body 0 adds body 1, body 1 is listed by body 0 and body 0 is
recorded in the `filtering_me` set of body 1. -/
theorem exceptions_mirror_filtering_me_witness :
    no_exceptions dormant_scene ∧
    (1 ∈ get_collision_exceptions 0 (run_exception_calls dormant_scene [.add 0 (.body 1)]) ↔
      0 ∈ ((run_exception_calls dormant_scene [.add 0 (.body 1)]).nodes 1).filtering_me) :=
  ⟨fun _ => ⟨rfl, rfl⟩,
    exceptions_mirror_filtering_me dormant_scene (fun _ => ⟨rfl, rfl⟩) [.add 0 (.body 1)] 0 1⟩

/-! ## Exception arguments that are not bodies -/

/-- C11: `add_collision_exception_with` and `remove_collision_exception_with` called with a
null node or with a node that is not a `Box2DPhysicsBody` leave the whole scene, and so the
`filtered` and `filtering_me` sets of every body, as they were. -/
theorem exception_calls_ignore_non_bodies (self : Nat) (s : Scene) (id : Nat) :
    add_collision_exception_with self .null s = s ∧
    add_collision_exception_with self (.other id) s = s ∧
    remove_collision_exception_with self .null s = s ∧
    remove_collision_exception_with self (.other id) s = s ∧
    (∀ a, ((add_collision_exception_with self .null s).nodes a).filtered = (s.nodes a).filtered ∧
      ((add_collision_exception_with self .null s).nodes a).filtering_me
        = (s.nodes a).filtering_me ∧
      ((add_collision_exception_with self (.other id) s).nodes a).filtered
        = (s.nodes a).filtered ∧
      ((add_collision_exception_with self (.other id) s).nodes a).filtering_me
        = (s.nodes a).filtering_me ∧
      ((remove_collision_exception_with self .null s).nodes a).filtered
        = (s.nodes a).filtered ∧
      ((remove_collision_exception_with self .null s).nodes a).filtering_me
        = (s.nodes a).filtering_me ∧
      ((remove_collision_exception_with self (.other id) s).nodes a).filtered
        = (s.nodes a).filtered ∧
      ((remove_collision_exception_with self (.other id) s).nodes a).filtering_me
        = (s.nodes a).filtering_me) :=
  ⟨rfl, rfl, rfl, rfl, fun _ => ⟨rfl, rfl, rfl, rfl, rfl, rfl, rfl, rfl⟩⟩

/-! ## Contact queries -/

theorem contact_at_out_of_range (cm : ContactMonitor) (p_idx : Int)
    (h : p_idx < 0 ∨ (cm.contacts.length : Int) ≤ p_idx) : cm.contact_at p_idx = none := by
  unfold ContactMonitor.contact_at
  rw [if_neg (by omega)]

theorem contact_at_in_range (cm : ContactMonitor) (p_idx : Int)
    (h : 0 ≤ p_idx ∧ p_idx < (cm.contacts.length : Int)) :
    ∃ c, cm.contacts[p_idx.toNat]? = some c ∧ cm.contact_at p_idx = some c := by
  have hlt : p_idx.toNat < cm.contacts.length := by omega
  refine ⟨cm.contacts[p_idx.toNat], List.getElem?_eq_getElem hlt, ?_⟩
  unfold ContactMonitor.contact_at
  rw [if_pos h, List.getElem?_eq_getElem hlt]

/-- C12, evaluated on a body with contact monitoring enabled and no buffered contact:
`get_contact_count()` is 0 and index 0 is out of range, yet none of the seven getters
returns its default value: each performs the unchecked read `contacts[0]`, which aborts. -/
theorem contact_getters_do_not_return_on_bad_index :
    get_contact_count monitored_body = 0 ∧
    get_contact_fixture_a monitored_body 0 = none ∧
    get_contact_fixture_b monitored_body 0 = none ∧
    get_contact_world_pos monitored_body 0 = none ∧
    get_contact_impact_velocity monitored_body 0 = none ∧
    get_contact_normal monitored_body 0 = none ∧
    get_contact_normal_impulse monitored_body 0 = none ∧
    get_contact_tangent_impulse monitored_body 0 = none ∧
    get_contact_fixture_a monitored_body 0 ≠ some none := by
  decide

/-- What the contact getters do for every index: on a body with contact monitoring enabled,
each of the seven returns the corresponding field of `contacts[idx]` when
`0 <= idx < get_contact_count()`, and for `idx < 0` or `idx >= get_contact_count()` none of
them returns (the read `contacts[idx]` is unchecked and aborts); the empty/default value
(null, zero vector, 0) is what they return, for every index, only when contact monitoring is
disabled, the one precondition they do test. -/
theorem contact_getters_by_index (me : Box2DPhysicsBody) (cm : ContactMonitor)
    (hm : me.contact_monitor = some cm) (p_idx : Int) :
    (0 ≤ p_idx ∧ p_idx < get_contact_count me →
      ∃ c, cm.contacts[p_idx.toNat]? = some c ∧
        get_contact_fixture_a me p_idx = some c.fixture_a ∧
        get_contact_fixture_b me p_idx = some c.fixture_b ∧
        get_contact_world_pos me p_idx = some c.world_pos ∧
        get_contact_impact_velocity me p_idx = some c.impact_velocity ∧
        get_contact_normal me p_idx = some c.normal ∧
        get_contact_normal_impulse me p_idx = some c.normal_impulse ∧
        get_contact_tangent_impulse me p_idx = some c.tangent_impulse) ∧
    (p_idx < 0 ∨ get_contact_count me ≤ p_idx →
      get_contact_fixture_a me p_idx = none ∧
      get_contact_fixture_b me p_idx = none ∧
      get_contact_world_pos me p_idx = none ∧
      get_contact_impact_velocity me p_idx = none ∧
      get_contact_normal me p_idx = none ∧
      get_contact_normal_impulse me p_idx = none ∧
      get_contact_tangent_impulse me p_idx = none) ∧
    (∀ (other : Box2DPhysicsBody) (idx : Int), other.contact_monitor = none →
      get_contact_count other = 0 ∧
      get_contact_fixture_a other idx = some none ∧
      get_contact_fixture_b other idx = some none ∧
      get_contact_world_pos other idx = some ⟨0, 0⟩ ∧
      get_contact_impact_velocity other idx = some ⟨0, 0⟩ ∧
      get_contact_normal other idx = some ⟨0, 0⟩ ∧
      get_contact_normal_impulse other idx = some 0 ∧
      get_contact_tangent_impulse other idx = some ⟨0, 0⟩) := by
  have hcount : get_contact_count me = cm.contacts.length := by
    unfold get_contact_count; rw [hm]
  refine ⟨?_, ?_, ?_⟩
  · intro h
    rw [hcount] at h
    obtain ⟨c, hc, hat⟩ := contact_at_in_range cm p_idx h
    refine ⟨c, hc, ?_⟩
    simp [get_contact_fixture_a, get_contact_fixture_b, get_contact_world_pos,
      get_contact_impact_velocity, get_contact_normal, get_contact_normal_impulse,
      get_contact_tangent_impulse, hm, hat]
  · intro h
    rw [hcount] at h
    have hat := contact_at_out_of_range cm p_idx h
    simp [get_contact_fixture_a, get_contact_fixture_b, get_contact_world_pos,
      get_contact_impact_velocity, get_contact_normal, get_contact_normal_impulse,
      get_contact_tangent_impulse, hm, hat]
  · intro other idx ho
    simp [get_contact_count, get_contact_fixture_a, get_contact_fixture_b,
      get_contact_world_pos, get_contact_impact_velocity, get_contact_normal,
      get_contact_normal_impulse, get_contact_tangent_impulse, ho]

/-- A body with one buffered contact between the fixtures 5 and 6: index 0 returns its
fixtures, index 1 does not return. -/
theorem contact_getters_by_index_witness :
    touching_body.contact_monitor
      = some { contacts := [{ id := 0, fixture_a := some 5, fixture_b := some 6 }] } ∧
    get_contact_fixture_a touching_body 0 = some (some 5) ∧
    get_contact_fixture_b touching_body 0 = some (some 6) ∧
    get_contact_fixture_a touching_body 1 = none := by
  have h0 := (contact_getters_by_index touching_body _ rfl 0).1 (by decide)
  have h1 := (contact_getters_by_index touching_body _ rfl 1).2.1 (by decide)
  obtain ⟨c, hc, ha, hb, _⟩ := h0
  have hc' : c = { id := 0, fixture_a := some 5, fixture_b := some 6 } := by
    simpa using hc.symm
  subst hc'
  exact ⟨rfl, ha, hb, h1.1⟩

/-! ## Flipping a contact point -/

/-- C19: `p.flipped_a_b()` has `fixture_a` and `fixture_b` exchanged, `normal` and
`tangent_impulse` negated, and `id`, `solves`, `world_pos`, `impact_velocity` and
`normal_impulse` equal to those of `p`. -/
theorem flipped_a_b_exchanges_and_negates (p : Box2DContactPoint) :
    p.flipped_a_b.fixture_a = p.fixture_b ∧
    p.flipped_a_b.fixture_b = p.fixture_a ∧
    p.flipped_a_b.normal = -p.normal ∧
    p.flipped_a_b.tangent_impulse = -p.tangent_impulse ∧
    p.flipped_a_b.id = p.id ∧
    p.flipped_a_b.solves = p.solves ∧
    p.flipped_a_b.world_pos = p.world_pos ∧
    p.flipped_a_b.impact_velocity = p.impact_velocity ∧
    p.flipped_a_b.normal_impulse = p.normal_impulse :=
  ⟨rfl, rfl, rfl, rfl, rfl, rfl, rfl, rfl, rfl⟩

/-! ## Collision filter -/

theorem set_filter_loop_length (fd : b2Filter) :
    ∀ fixtures : List b2Fixture, (set_filter_loop fd fixtures).length = fixtures.length
  | [] => rfl
  | f :: rest => by simp [set_filter_loop, set_filter_loop_length fd rest]

theorem set_filter_loop_get (fd : b2Filter) :
    ∀ (fixtures : List b2Fixture) (i : Nat) (f : b2Fixture), fixtures[i]? = some f →
      (set_filter_loop fd fixtures)[i]? =
        some (if f.override_body_collision then f else { f with filter := fd })
  | [], i, f, h => by simp at h
  | g :: rest, 0, f, h => by
    have hg : g = f := by simpa using h
    subst hg
    cases ho : g.override_body_collision <;> simp [set_filter_loop, ho, b2Fixture.SetFilterData]
  | g :: rest, i + 1, f, h => by
    have hr : rest[i]? = some f := by simpa using h
    simpa [set_filter_loop] using set_filter_loop_get fd rest i f hr

/-- What `update_filterdata` does on a live kernel body: the cached filter and everything
but the fixtures stay, and each fixture follows the cached filter unless marked override. -/
theorem update_filterdata_live (me : Box2DPhysicsBody) (b : b2Body) (hb : me.body = some b) :
    ∃ b1, (update_filterdata me).body = some b1 ∧
      (update_filterdata me).filterDef = me.filterDef ∧
      b1.fixtures.length = b.fixtures.length ∧
      ∀ (i : Nat) (f : b2Fixture), b.fixtures[i]? = some f →
        b1.fixtures[i]? =
          some (if f.override_body_collision then f else { f with filter := me.filterDef }) := by
  refine ⟨{ b with fixtures := set_filter_loop me.filterDef b.fixtures }, ?_, ?_, ?_, ?_⟩
  · unfold update_filterdata; rw [hb]
  · unfold update_filterdata; rw [hb]
  · exact set_filter_loop_length _ _
  · exact set_filter_loop_get _ _

theorem update_filterdata_dormant (me : Box2DPhysicsBody) (hb : me.body = none) :
    update_filterdata me = me := by
  unfold update_filterdata; rw [hb]

/-- C13: whenever `set_collision_layer`, `set_collision_mask`, `set_group_index` or
`set_filter_data` changes the body's filter while a kernel body exists, afterwards (with
`fd` the body's new filter) every kernel fixture not marked override has filter data `fd` and
every fixture marked override is as it was; when no kernel body exists the setters change
the cached filter and leave the kernel-body handle null, and `update_filterdata` changes
nothing. -/
theorem filter_setters_push_to_fixtures (me : Box2DPhysicsBody) (b : b2Body)
    (hb : me.body = some b) (p_layer p_mask : Nat) (p_group_index : Int) :
    ((me.filterDef.categoryBits ≠ p_layer →
        ∃ b1, (set_collision_layer p_layer me).body = some b1 ∧
          (set_collision_layer p_layer me).filterDef
            = { me.filterDef with categoryBits := p_layer } ∧
          b1.fixtures.length = b.fixtures.length ∧
          ∀ (i : Nat) (f : b2Fixture), b.fixtures[i]? = some f →
            b1.fixtures[i]? = some (if f.override_body_collision then f
              else { f with filter := { me.filterDef with categoryBits := p_layer } })) ∧
      (me.filterDef.maskBits ≠ p_mask →
        ∃ b1, (set_collision_mask p_mask me).body = some b1 ∧
          (set_collision_mask p_mask me).filterDef = { me.filterDef with maskBits := p_mask } ∧
          b1.fixtures.length = b.fixtures.length ∧
          ∀ (i : Nat) (f : b2Fixture), b.fixtures[i]? = some f →
            b1.fixtures[i]? = some (if f.override_body_collision then f
              else { f with filter := { me.filterDef with maskBits := p_mask } })) ∧
      (me.filterDef.groupIndex ≠ p_group_index →
        ∃ b1, (set_group_index p_group_index me).body = some b1 ∧
          (set_group_index p_group_index me).filterDef
            = { me.filterDef with groupIndex := p_group_index } ∧
          b1.fixtures.length = b.fixtures.length ∧
          ∀ (i : Nat) (f : b2Fixture), b.fixtures[i]? = some f →
            b1.fixtures[i]? = some (if f.override_body_collision then f
              else { f with filter := { me.filterDef with groupIndex := p_group_index } })) ∧
      (me.filterDef ≠ ⟨p_layer, p_mask, p_group_index⟩ →
        ∃ b1, (set_filter_data p_layer p_mask p_group_index me).body = some b1 ∧
          (set_filter_data p_layer p_mask p_group_index me).filterDef
            = ⟨p_layer, p_mask, p_group_index⟩ ∧
          b1.fixtures.length = b.fixtures.length ∧
          ∀ (i : Nat) (f : b2Fixture), b.fixtures[i]? = some f →
            b1.fixtures[i]? = some (if f.override_body_collision then f
              else { f with filter := ⟨p_layer, p_mask, p_group_index⟩ }))) ∧
    (∀ other : Box2DPhysicsBody, other.body = none →
      update_filterdata other = other ∧
      set_collision_layer p_layer other
        = { other with filterDef := { other.filterDef with categoryBits := p_layer } } ∧
      set_collision_mask p_mask other
        = { other with filterDef := { other.filterDef with maskBits := p_mask } } ∧
      set_group_index p_group_index other
        = { other with filterDef := { other.filterDef with groupIndex := p_group_index } } ∧
      set_filter_data p_layer p_mask p_group_index other
        = { other with filterDef := ⟨p_layer, p_mask, p_group_index⟩ }) := by
  constructor
  · refine ⟨?_, ?_, ?_, ?_⟩
    · intro hne
      unfold set_collision_layer
      rw [if_pos hne]
      exact update_filterdata_live _ b hb
    · intro hne
      unfold set_collision_mask
      rw [if_pos hne]
      exact update_filterdata_live _ b hb
    · intro hne
      unfold set_group_index
      rw [if_pos hne]
      exact update_filterdata_live _ b hb
    · intro hne
      have hcond : me.filterDef.categoryBits ≠ p_layer ∨ me.filterDef.maskBits ≠ p_mask ∨
          me.filterDef.groupIndex ≠ p_group_index := by
        by_contra hcon
        push_neg at hcon
        apply hne
        obtain ⟨h1, h2, h3⟩ := hcon
        cases hf : me.filterDef with
        | mk c m g =>
          rw [hf] at h1 h2 h3
          simp only at h1 h2 h3
          rw [h1, h2, h3]
      unfold set_filter_data
      rw [if_pos hcond]
      exact update_filterdata_live _ b hb
  · intro me hb
    refine ⟨update_filterdata_dormant me hb, ?_, ?_, ?_, ?_⟩
    · unfold set_collision_layer
      split
      · exact update_filterdata_dormant _ hb
      · next h =>
        have h' : me.filterDef.categoryBits = p_layer := by simpa using h
        rw [← h']
    · unfold set_collision_mask
      split
      · exact update_filterdata_dormant _ hb
      · next h =>
        have h' : me.filterDef.maskBits = p_mask := by simpa using h
        rw [← h']
    · unfold set_group_index
      split
      · exact update_filterdata_dormant _ hb
      · next h =>
        have h' : me.filterDef.groupIndex = p_group_index := by simpa using h
        rw [← h']
    · unfold set_filter_data
      split
      · exact update_filterdata_dormant _ hb
      · next h =>
        push_neg at h
        obtain ⟨h1, h2, h3⟩ := h
        rw [← h1, ← h2, ← h3]

/-- C13 at a live body with one following and one overriding fixture: after
`set_collision_layer(2)` the first fixture carries the body's new filter and the second keeps
its own. -/
theorem filter_setters_push_to_fixtures_witness :
    live_body.body = some sample_kernel_body ∧
    ∃ b1, (set_collision_layer 2 live_body).body = some b1 ∧
      b1.fixtures[0]? = some { filter := ⟨2, 1, 0⟩, override_body_collision := false } ∧
      b1.fixtures[1]? = some { filter := ⟨4, 4, 0⟩, override_body_collision := true } := by
  obtain ⟨b1, h1, _, _, h4⟩ :=
    (filter_setters_push_to_fixtures live_body sample_kernel_body rfl 2 0 0).1.1 (by decide)
  exact ⟨rfl, b1, h1, h4 0 _ rfl, h4 1 _ rfl⟩

/-! ## Cached body properties -/

theorem destroy_keeps_bodyDef (self : Nat) (s : Scene) :
    ((destroy_b2Body self s).2.nodes self).bodyDef = (s.nodes self).bodyDef := by
  unfold destroy_b2Body
  cases hb : (s.nodes self).body with
  | none => simp only [hb]
  | some b =>
    cases hw : (s.nodes self).world_node with
    | none => simp only [hb, hw]
    | some w =>
      cases hkw : (s.worlds w).world with
      | none => simp only [hb, hw, hkw]
      | some kw => simp [hb, hw, hkw]

/-- C14: on a body with no kernel body, each of `set_angular_velocity`, `set_gravity_scale`,
`set_type`, `set_bullet`, `set_awake`, `set_can_sleep`, `set_enabled` and
`set_fixed_rotation` stores its argument in the cached definition so that the matching
getter returns exactly that value, and `get_linear_velocity()` after
`set_linear_velocity(v)` returns `b2_to_gd(gd_to_b2(v))`; the kernel-body handle stays null;
and `destroy_b2Body` never changes the cached definition (on a body without kernel body it
changes nothing at all). -/
theorem setters_cache_values_without_kernel_body (env : Env) (me : Box2DPhysicsBody)
    (hb : me.body = none) (omega scale : ℚ) (type : Nat) (flag : Bool) (vel : Vector2) :
    (get_angular_velocity (set_angular_velocity omega me) = omega ∧
      (set_angular_velocity omega me).bodyDef.angularVelocity = omega) ∧
    (get_gravity_scale (set_gravity_scale scale me) = scale) ∧
    (get_type (set_type type me) = type) ∧
    (is_bullet (set_bullet flag me) = flag) ∧
    (is_awake (set_awake flag me) = flag ∧ (set_awake flag me).bodyDef.awake = flag) ∧
    (get_can_sleep (set_can_sleep flag me) = flag) ∧
    (is_enabled (set_enabled flag me) = flag) ∧
    (is_fixed_rotation (set_fixed_rotation flag me) = flag) ∧
    (get_linear_velocity env (set_linear_velocity env vel me)
        = env.b2_to_gd (env.gd_to_b2 vel) ∧
      (set_linear_velocity env vel me).bodyDef.linearVelocity = env.gd_to_b2 vel) ∧
    ((set_angular_velocity omega me).body = none ∧ (set_gravity_scale scale me).body = none ∧
      (set_type type me).body = none ∧ (set_bullet flag me).body = none ∧
      (set_awake flag me).body = none ∧ (set_can_sleep flag me).body = none ∧
      (set_enabled flag me).body = none ∧ (set_fixed_rotation flag me).body = none ∧
      (set_linear_velocity env vel me).body = none) ∧
    (∀ (self : Nat) (s : Scene),
      ((destroy_b2Body self s).2.nodes self).bodyDef = (s.nodes self).bodyDef ∧
      ((s.nodes self).body = none → (destroy_b2Body self s).2 = s)) := by
  refine ⟨?_, ?_, ?_, ?_, ?_, ?_, ?_, ?_, ?_, ?_, ?_⟩
  · simp [get_angular_velocity, set_angular_velocity, hb]
  · simp [get_gravity_scale, set_gravity_scale]
  · simp [get_type, set_type]
  · simp [is_bullet, set_bullet]
  · simp [is_awake, set_awake, hb]
  · simp [get_can_sleep, set_can_sleep]
  · simp [is_enabled, set_enabled]
  · simp [is_fixed_rotation, set_fixed_rotation]
  · simp [get_linear_velocity, set_linear_velocity, hb]
  · simp [set_angular_velocity, set_gravity_scale, set_type, set_bullet, set_awake,
      set_can_sleep, set_enabled, set_fixed_rotation, set_linear_velocity, hb]
  · intro self s
    refine ⟨destroy_keeps_bodyDef self s, fun h => ?_⟩
    rw [destroy_without_body self s h]

/-- C14 at a freshly constructed body: an angular velocity of 3 is read back as 3. -/
theorem setters_cache_values_without_kernel_body_witness :
    fresh_body.body = none ∧
    get_angular_velocity (set_angular_velocity 3 fresh_body) = 3 ∧
    is_enabled (set_enabled false fresh_body) = false :=
  ⟨rfl,
    (setters_cache_values_without_kernel_body plain_env fresh_body rfl 3 1 0 false ⟨0, 0⟩).1.1,
    (setters_cache_values_without_kernel_body plain_env fresh_body rfl 3 1 0 false
      ⟨0, 0⟩).2.2.2.2.2.2.1⟩

/-! ## Mass data -/

/-- C15: on a live kernel body with `use_custom_massdata` set, after
`set_custom_mass_data(m, I, c)` the kernel body has been handed exactly the mass data
`(m, I, gd_to_b2(c))`, so `get_mass()` is `m` and `get_inertia()` is `I`; with
`use_custom_massdata` false, `update_mass` and `set_custom_mass_data` never hand the custom
mass data to the kernel (the kernel body is left as it is, or reset to the kernel-computed
mass data), so `get_mass()` of a body with kernel-computed mass stays the kernel-computed
mass. -/
theorem custom_mass_data_reaches_kernel (env : Env) (me : Box2DPhysicsBody) (b : b2Body)
    (hb : me.body = some b) (hc : me.use_custom_massdata = true) (m I : ℚ) (c : Vector2) :
    (set_custom_mass_data env m I c me).body
      = some { b with massData := some { mass := m, center := env.gd_to_b2 c, I := I } } ∧
    get_mass env (set_custom_mass_data env m I c me) = m ∧
    get_inertia env (set_custom_mass_data env m I c me) = I ∧
    (∀ (other : Box2DPhysicsBody) (k : b2Body), other.body = some k →
      other.use_custom_massdata = false →
      (update_mass false other).body = some k ∧
      (update_mass true other).body = some { k with massData := none } ∧
      (set_custom_mass_data env m I c other).body = some k ∧
      (k.massData = none →
        get_mass env (update_mass false other) = env.computed_mass k ∧
        get_mass env (update_mass true other) = env.computed_mass k ∧
        get_mass env (set_custom_mass_data env m I c other) = env.computed_mass k)) := by
  have h1 : (set_custom_mass_data env m I c me).body
      = some { b with massData := some { mass := m, center := env.gd_to_b2 c, I := I } } := by
    simp [set_custom_mass_data, update_mass, hb, hc]
  refine ⟨h1, ?_, ?_, ?_⟩
  · unfold get_mass; rw [h1]; rfl
  · unfold get_inertia; rw [h1]; rfl
  · intro other k hk hf
    have e1 : (update_mass false other).body = some k := by
      simp [update_mass, hk, hf]
    have e2 : (update_mass true other).body = some { k with massData := none } := by
      simp [update_mass, hk, hf]
    have e3 : (set_custom_mass_data env m I c other).body = some k := by
      simp [set_custom_mass_data, update_mass, hk, hf]
    refine ⟨e1, e2, e3, ?_⟩
    intro hn
    have hk' : ({ k with massData := none } : b2Body) = k := by
      cases k with
      | mk d o md fx =>
        simp only at hn
        rw [hn]
    refine ⟨?_, ?_, ?_⟩
    · unfold get_mass; rw [e1]; simp [b2Body.GetMass, hn]
    · unfold get_mass; rw [e2, hk']; simp [b2Body.GetMass, hn]
    · unfold get_mass; rw [e3]; simp [b2Body.GetMass, hn]

/-- C15 at mass 5, inertia 2 and center (0, 0) on a live body that uses custom mass data:
`get_mass()` is 5 and `get_inertia()` is 2. -/
theorem custom_mass_data_reaches_kernel_witness :
    custom_mass_body.body = some sample_kernel_body ∧
    custom_mass_body.use_custom_massdata = true ∧
    get_mass plain_env (set_custom_mass_data plain_env 5 2 ⟨0, 0⟩ custom_mass_body) = 5 ∧
    get_inertia plain_env (set_custom_mass_data plain_env 5 2 ⟨0, 0⟩ custom_mass_body) = 2 :=
  ⟨rfl, rfl,
    (custom_mass_data_reaches_kernel plain_env custom_mass_body sample_kernel_body rfl rfl
      5 2 ⟨0, 0⟩).2.1,
    (custom_mass_data_reaches_kernel plain_env custom_mass_body sample_kernel_body rfl rfl
      5 2 ⟨0, 0⟩).2.2.1⟩

/-! ## Stepping -/

theorem sync_state_keeps (env : Env) (b : b2Body) (me : Box2DPhysicsBody) :
    (sync_state env b me).1.body = me.body ∧
    (sync_state env b me).1.prev_sleeping_state = me.prev_sleeping_state ∧
    (sync_state env b me).1.prev_enabled_state = me.prev_enabled_state :=
  ⟨rfl, rfl, rfl⟩

/-- A live body whose kernel enabled flag differs from the recorded one emits
`enabled_state_changed` on `step` and keeps the recorded flag, so the next step meets the
same situation. -/
theorem step_never_records_enabled (env : Env) (me : Box2DPhysicsBody) (b : b2Body)
    (hb : me.body = some b) (hne : b.definition.enabled ≠ me.prev_enabled_state) :
    "enabled_state_changed" ∈ (step env me).2.1 ∧
    (step env me).1.prev_enabled_state = me.prev_enabled_state ∧
    (step env me).1.body = some b := by
  unfold step
  simp only [hb]
  by_cases ha : b.definition.awake ≠ me.prev_sleeping_state
  · simp only [if_pos ha, if_pos hne]
    exact ⟨by simp, rfl, rfl⟩
  · simp only [if_neg ha, if_pos hne]
    exact ⟨by simp, rfl, hb⟩

/-- C16, evaluated at a live body whose kernel body is disabled while the recorded flag is
still set: two consecutive `step()` calls observe the same kernel enabled flag (false), and
both emit `enabled_state_changed`, because `step` never records the flag it saw. -/
theorem second_step_repeats_enabled_signal :
    ((step plain_env disabled_live_body).1.body.map (fun b => b.definition.enabled)
      = disabled_live_body.body.map (fun b => b.definition.enabled)) ∧
    "enabled_state_changed" ∈ (step plain_env disabled_live_body).2.1 ∧
    "enabled_state_changed" ∈ (step plain_env (step plain_env disabled_live_body).1).2.1 := by
  have h1 := step_never_records_enabled plain_env disabled_live_body _ rfl (by decide)
  have h2 := step_never_records_enabled plain_env (step plain_env disabled_live_body).1 _
    h1.2.2 (by rw [h1.2.1]; decide)
  refine ⟨?_, h1.1, h2.1⟩
  rw [h1.2.2]; rfl

/-- C17: on a live kernel body, `step()` emits `sleeping_state_changed` once when the
kernel's awake flag differs from the recorded one and not at all otherwise, and records the
flag it saw; so a following `step()` that observes the same awake flag (whatever else the
kernel changed in between) emits no `sleeping_state_changed`; `set_awake` records its
argument; and with no kernel body `step()` emits nothing and changes no state. -/
theorem step_reports_awake_changes (env : Env) (me : Box2DPhysicsBody) (b : b2Body)
    (hb : me.body = some b) :
    ((step env me).2.1.count "sleeping_state_changed"
      = if b.definition.awake ≠ me.prev_sleeping_state then 1 else 0) ∧
    (step env me).1.prev_sleeping_state = b.definition.awake ∧
    (∀ b2 : b2Body, b2.definition.awake = b.definition.awake →
      "sleeping_state_changed" ∉ (step env (kernel_moves b2 (step env me).1)).2.1) ∧
    (∀ flag : Bool, (set_awake flag me).prev_sleeping_state = flag) ∧
    (∀ other : Box2DPhysicsBody, other.body = none → step env other = (other, [], [])) := by
  have hcount : ∀ (x : Box2DPhysicsBody) (k : b2Body), x.body = some k →
      ((step env x).2.1.count "sleeping_state_changed"
        = if k.definition.awake ≠ x.prev_sleeping_state then 1 else 0) ∧
      (step env x).1.prev_sleeping_state = k.definition.awake ∧
      (step env x).1.body = some k := by
    intro x k hk
    unfold step
    simp only [hk]
    by_cases ha : k.definition.awake ≠ x.prev_sleeping_state
    · simp only [if_pos ha]
      refine ⟨?_, rfl, rfl⟩
      split <;> simp [List.count_cons]
    · simp only [if_neg ha]
      have he : k.definition.awake = x.prev_sleeping_state := by simpa using ha
      refine ⟨?_, he.symm, hk⟩
      split <;> simp [List.count_cons]
  obtain ⟨h1, h2, h3⟩ := hcount me b hb
  refine ⟨h1, h2, ?_, fun _ => rfl, ?_⟩
  · intro b2 hsame
    have hk : (kernel_moves b2 (step env me).1).body = some b2 := by
      unfold kernel_moves
      simp [h3]
    have hp : (kernel_moves b2 (step env me).1).prev_sleeping_state = b.definition.awake := h2
    have h4 := (hcount _ b2 hk).1
    rw [hp, hsame, if_neg (by simp)] at h4
    exact List.count_eq_zero.mp h4
  · intro other ho
    unfold step
    simp only [ho]

/-- C17 at a sleeping kernel body whose owner still records awake: the first `step()` emits
`sleeping_state_changed` once. -/
theorem step_reports_awake_changes_witness :
    sleeping_live_body.body
      = some { sample_kernel_body with
        definition := { sample_kernel_body.definition with awake := false } } ∧
    (step plain_env sleeping_live_body).2.1.count "sleeping_state_changed" = 1 := by
  refine ⟨rfl, ?_⟩
  rw [(step_reports_awake_changes plain_env sleeping_live_body _ rfl).1]
  rfl

/-! ## The composed transform -/

theorem Transform2D.mul_assoc (a b c : Transform2D) : a * b * c = a * (b * c) := by
  obtain ⟨⟨a1, a2⟩, ⟨a3, a4⟩, ⟨a5, a6⟩⟩ := a
  obtain ⟨⟨b1, b2⟩, ⟨b3, b4⟩, ⟨b5, b6⟩⟩ := b
  obtain ⟨⟨c1, c2⟩, ⟨c3, c4⟩, ⟨c5, c6⟩⟩ := c
  simp only [Transform2D.mul_def, Transform2D.mul, Transform2D.tdotx, Transform2D.tdoty,
    Transform2D.xform, Transform2D.basis_xform, Vector2.add_def, Transform2D.mk.injEq,
    Vector2.mk.injEq]
  refine ⟨⟨?_, ?_⟩, ⟨?_, ?_⟩, ⟨?_, ?_⟩⟩ <;> ring

theorem Transform2D.identity_mul (a : Transform2D) : Transform2D.identity * a = a := by
  obtain ⟨⟨a1, a2⟩, ⟨a3, a4⟩, ⟨a5, a6⟩⟩ := a
  simp [Transform2D.mul_def, Transform2D.mul, Transform2D.tdotx, Transform2D.tdoty,
    Transform2D.xform, Transform2D.basis_xform, Vector2.add_def, Transform2D.identity]

theorem get_walk_eq (world_node : Option Nat) :
    ∀ (parents : List Node) (transforms : List Transform2D),
      get_walk world_node parents transforms =
        (intermediate_transforms world_node parents).reverse ++ transforms
  | [], transforms => by simp [get_walk, intermediate_transforms]
  | parent :: up, transforms => by
    unfold get_walk
    by_cases hw : some parent.id = world_node
    · simp [hw, intermediate_transforms]
    · rw [if_neg hw]
      have ih := get_walk_eq world_node up
      cases hc : parent.canvas with
      | some t =>
        simp only []
        rw [ih]
        simp [intermediate_transforms, List.takeWhile_cons, hw, hc]
      | none =>
        simp only []
        rw [ih]
        simp [intermediate_transforms, List.takeWhile_cons, hw, hc]

theorem fold_back_eq (L : Transform2D) :
    ∀ (ancestors : List Transform2D) (returned : Transform2D),
      fold_back returned (ancestors.reverse ++ [L]) = returned * ancestors_product ancestors L := by
  intro ancestors
  induction ancestors using List.reverseRecOn with
  | nil => intro returned; rfl
  | append_singleton init last ih =>
    intro returned
    rw [List.reverse_append, List.reverse_singleton, List.singleton_append, List.cons_append]
    show fold_back (returned * last) (init.reverse ++ [L]) = _
    rw [ih, Transform2D.mul_assoc]
    unfold ancestors_product
    rw [List.foldl_append]
    rfl

/-- C18: `get_box2dworld_transform()` returns the product `P_k * ... * P_1 * L` of the local
transforms of the CanvasItem ancestors strictly between the body and `world_node` (nearest
first) and the body's own local transform `L`; ancestors that are not CanvasItems contribute
nothing, the world node and everything above it are left out, and without intermediate
CanvasItem ancestors the result is `L`. The function reads the body and changes nothing. -/
theorem composed_transform_is_ancestor_product (me : Box2DPhysicsBody) :
    get_box2dworld_transform me =
      ancestors_product (intermediate_transforms me.world_node me.parents) me.transform ∧
    (intermediate_transforms me.world_node me.parents = [] →
      get_box2dworld_transform me = me.transform) ∧
    (∀ (node : Node) (up : List Node), node.canvas = none →
      intermediate_transforms me.world_node (node :: up)
        = if some node.id = me.world_node then [] else intermediate_transforms me.world_node up) ∧
    (∀ (below above : List Node) (world : Node), some world.id = me.world_node →
      (∀ p ∈ below, some p.id ≠ me.world_node) →
      intermediate_transforms me.world_node (below ++ world :: above)
        = below.filterMap (fun p => p.canvas)) := by
  have h : get_box2dworld_transform me =
      ancestors_product (intermediate_transforms me.world_node me.parents) me.transform := by
    unfold get_box2dworld_transform
    rw [get_walk_eq, fold_back_eq, Transform2D.identity_mul]
  refine ⟨h, ?_, ?_, ?_⟩
  · intro he
    rw [h, he]
    rfl
  · intro node up hc
    by_cases hw : some node.id = me.world_node
    · simp [intermediate_transforms, List.takeWhile_cons, hw]
    · simp [intermediate_transforms, List.takeWhile_cons, hw, hc]
  · intro below above world hw hbelow
    unfold intermediate_transforms
    have htw : (below ++ world :: above).takeWhile
        (fun p => decide (some p.id ≠ me.world_node)) = below := by
      induction below with
      | nil => simp [List.takeWhile_cons, hw]
      | cons p rest ih =>
        have hp := hbelow p (List.mem_cons_self _ _)
        simp only [List.cons_append, List.takeWhile_cons, hp, ne_eq, not_false_eq_true,
          decide_True, if_true]
        rw [ih (fun q hq => hbelow q (List.mem_cons_of_mem _ hq))]
    rw [htw]

/-- C18 at a body under a plain node, a translation and a rotation inside its world: the
composed transform is the rotation times the translation times the local transform; the
plain node, the world and the node above the world do not enter. -/
theorem composed_transform_is_ancestor_product_witness :
    get_box2dworld_transform nested_body =
      (⟨⟨0, 1⟩, ⟨-1, 0⟩, ⟨0, 0⟩⟩ : Transform2D) *
        ((⟨⟨1, 0⟩, ⟨0, 1⟩, ⟨1, 0⟩⟩ : Transform2D) * ⟨⟨1, 0⟩, ⟨0, 1⟩, ⟨2, 3⟩⟩) := by
  rw [(composed_transform_is_ancestor_product nested_body).1]
  simp [ancestors_product, intermediate_transforms, nested_body, fresh_body,
    List.takeWhile_cons, List.filterMap_cons]

/-! ## What creating a body and entering the tree change -/

theorem attach_observed (env : Env) (self : Nat) (s : Scene) (w : Nat)
    (hw : (s.nodes self).world_node = some w) (hb : (s.nodes self).body = none)
    (hk : has_kernel s w) :
    (∃ b, ((create_b2Body env self s).2.nodes self).body = some b ∧
      b.definition.position = env.gd_to_b2 (get_box2dworld_transform (s.nodes self)).origin ∧
      b.definition.angle = env.get_rotation (get_box2dworld_transform (s.nodes self)) ∧
      b.owner = some self) ∧
    ((create_b2Body env self s).2.nodes self).world_node = some w ∧
    ((create_b2Body env self s).2.worlds w).bodies = set_insert self (s.worlds w).bodies ∧
    ∀ w1, w1 ≠ w → (create_b2Body env self s).2.worlds w1 = s.worlds w1 := by
  unfold has_kernel at hk
  obtain ⟨kw, hkw⟩ := Option.isSome_iff_exists.mp hk
  unfold create_b2Body
  simp only [hw, hb, hkw]
  refine ⟨?_, ?_, ?_, ?_⟩
  · simp only [Function.update_same]
    unfold update_mass
    simp only []
    split <;> simp [b2World.CreateBody]
  · simp [update_mass_world_node, hw]
  · simp
  · intro w1 hne
    simp [Function.update_noteq hne]

theorem not_mem_set_erase_self (x : Nat) (l : List Nat) (h : l.Nodup) : x ∉ set_erase x l := by
  intro hx
  exact ((mem_set_erase x x l h).1 hx).1 rfl

/-! ## Local transform changes -/

/-- C21: after `NOTIFICATION_LOCAL_TRANSFORM_CHANGED` is handled, with
`T = get_box2dworld_transform()` (the same before and after), the cached definition has
position `gd_to_b2(T.origin)` and angle `T.get_rotation()`, whether or not a kernel body
exists; a kernel body, of whatever type, has been given that same position and angle and is
otherwise as it was; and without kernel body the handle stays null. -/
theorem transform_change_reaches_definition_and_kernel (env : Env) (me : Box2DPhysicsBody) :
    get_box2dworld_transform (on_local_transform_changed env me).1
      = get_box2dworld_transform me ∧
    (on_local_transform_changed env me).1.bodyDef.position
      = env.gd_to_b2 (get_box2dworld_transform me).origin ∧
    (on_local_transform_changed env me).1.bodyDef.angle
      = env.get_rotation (get_box2dworld_transform me) ∧
    (∀ b, me.body = some b →
      (on_local_transform_changed env me).1.body
        = some (b.SetTransform (env.gd_to_b2 (get_box2dworld_transform me).origin)
            (env.get_rotation (get_box2dworld_transform me))) ∧
      (b.SetTransform (env.gd_to_b2 (get_box2dworld_transform me).origin)
          (env.get_rotation (get_box2dworld_transform me))).definition.position
        = env.gd_to_b2 (get_box2dworld_transform me).origin ∧
      (b.SetTransform (env.gd_to_b2 (get_box2dworld_transform me).origin)
          (env.get_rotation (get_box2dworld_transform me))).definition.angle
        = env.get_rotation (get_box2dworld_transform me) ∧
      (b.SetTransform (env.gd_to_b2 (get_box2dworld_transform me).origin)
          (env.get_rotation (get_box2dworld_transform me))).definition.type
        = b.definition.type) ∧
    (me.body = none → (on_local_transform_changed env me).1.body = none) := by
  have hf := on_local_transform_changed_frame env me
  refine ⟨?_, ?_, ?_, ?_, ?_⟩
  · unfold get_box2dworld_transform
    rw [hf.1, hf.2.1, hf.2.2.1]
  · unfold on_local_transform_changed
    cases hb : me.body <;> rfl
  · unfold on_local_transform_changed
    cases hb : me.body <;> rfl
  · intro b hb
    refine ⟨?_, rfl, rfl, rfl⟩
    unfold on_local_transform_changed
    simp only [hb]
  · intro hb
    unfold on_local_transform_changed
    simp only [hb]

/-! ## Writing the kernel pose back -/

theorem sync_state_blocked (env : Env) (b : b2Body) (me : Box2DPhysicsBody) :
    sync_state env b me =
      ({ me with
          transform := fold_back Transform2D.identity
            (set_walk me.world_node me.parents
              [env.b2_to_gd_transform b.definition.position b.definition.angle])
          block_transform_notify := false }, []) := by
  have h := set_transform_quiet env
    (fold_back Transform2D.identity
      (set_walk me.world_node me.parents
        [env.b2_to_gd_transform b.definition.position b.definition.angle]))
    { me with block_transform_notify := true } rfl
  unfold sync_state set_box2dworld_transform
  dsimp only
  rw [h]

/-- C22: `step()` on a live body writes the kernel pose into the local transform while
transform notifications are blocked, and a blocked `set_transform` delivers nothing (an
unblocked one on a notifying node runs the transform-changed handler): `step()` leaves the
kernel body, so its pose, and the whole cached definition, so its position and angle,
exactly as they were, issues no joint callback, and transform notification blocking is off
when it returns. -/
theorem step_writes_transform_without_push (env : Env) (me : Box2DPhysicsBody) (b : b2Body)
    (hb : me.body = some b) :
    (step env me).1.body = some b ∧
    (step env me).1.bodyDef = me.bodyDef ∧
    (step env me).1.block_transform_notify = false ∧
    (step env me).2.2 = [] ∧
    (step env me).1.transform = fold_back Transform2D.identity
      (set_walk me.world_node me.parents
        [env.b2_to_gd_transform b.definition.position b.definition.angle]) ∧
    (∀ (t : Transform2D) (x : Box2DPhysicsBody), x.block_transform_notify = true →
      set_transform env t x = ({ x with transform := t }, [])) ∧
    (∀ (t : Transform2D) (x : Box2DPhysicsBody), x.block_transform_notify = false →
      x.notify_local_transform = true →
      set_transform env t x = on_local_transform_changed env { x with transform := t }) := by
  have hstep : step env me =
      ((sync_state env b (if b.definition.awake ≠ me.prev_sleeping_state then
          { me with prev_sleeping_state := b.definition.awake } else me)).1,
        (if b.definition.awake ≠ me.prev_sleeping_state then ["sleeping_state_changed"] else [])
          ++ (if b.definition.enabled ≠ me.prev_enabled_state then ["enabled_state_changed"]
            else []),
        (sync_state env b (if b.definition.awake ≠ me.prev_sleeping_state then
          { me with prev_sleeping_state := b.definition.awake } else me)).2) := by
    unfold step
    simp only [hb]
    by_cases ha : b.definition.awake ≠ me.prev_sleeping_state
    · simp only [if_pos ha]
    · simp only [if_neg ha]
  rw [hstep]
  simp only [sync_state_blocked]
  refine ⟨?_, ?_, trivial, trivial, ?_, ?_, ?_⟩
  · by_cases ha : b.definition.awake ≠ me.prev_sleeping_state
    · simp only [if_pos ha]; exact hb
    · simp only [if_neg ha]; exact hb
  · by_cases ha : b.definition.awake ≠ me.prev_sleeping_state
    · simp only [if_pos ha]
    · simp only [if_neg ha]
  · by_cases ha : b.definition.awake ≠ me.prev_sleeping_state
    · simp only [if_pos ha]
    · simp only [if_neg ha]
  · intro t x hx
    exact set_transform_quiet env t x (by rw [hx]; rfl)
  · intro t x hx hn
    exact set_transform_notifies env t x (by rw [hx, hn]; rfl)

/-- C22 at a live body: after `step()` the kernel body is the one before and blocking is
off. -/
theorem step_writes_transform_without_push_witness :
    live_body.body = some sample_kernel_body ∧
    (step plain_env live_body).1.body = some sample_kernel_body ∧
    (step plain_env live_body).1.bodyDef = live_body.bodyDef ∧
    (step plain_env live_body).1.block_transform_notify = false :=
  ⟨rfl,
    (step_writes_transform_without_push plain_env live_body sample_kernel_body rfl).1,
    (step_writes_transform_without_push plain_env live_body sample_kernel_body rfl).2.1,
    (step_writes_transform_without_push plain_env live_body sample_kernel_body rfl).2.2.1⟩

/-! ## Setting the composed transform -/

theorem Transform2D.mul_affine_inverse (P : Transform2D) (h : P.basis_determinant ≠ 0) :
    P * P.affine_inverse = Transform2D.identity := by
  obtain ⟨⟨a, b⟩, ⟨c, d⟩, ⟨e, f⟩⟩ := P
  simp only [Transform2D.basis_determinant] at h
  simp only [Transform2D.mul_def, Transform2D.mul, Transform2D.affine_inverse,
    Transform2D.tdotx, Transform2D.tdoty, Transform2D.xform, Transform2D.basis_xform,
    Transform2D.basis_determinant, Vector2.add_def, Vector2.neg_def, Transform2D.identity,
    Transform2D.mk.injEq, Vector2.mk.injEq]
  refine ⟨⟨?_, ?_⟩, ⟨?_, ?_⟩, ⟨?_, ?_⟩⟩ <;> field_simp <;> ring

theorem set_walk_eq (world_node : Option Nat) :
    ∀ (parents : List Node) (transforms : List Transform2D),
      set_walk world_node parents transforms =
        ((intermediate_transforms world_node parents).map
          Transform2D.affine_inverse).reverse ++ transforms
  | [], transforms => by simp [set_walk, intermediate_transforms]
  | parent :: up, transforms => by
    unfold set_walk
    by_cases hw : some parent.id = world_node
    · simp [hw, intermediate_transforms]
    · rw [if_neg hw]
      have ih := set_walk_eq world_node up
      cases hc : parent.canvas with
      | some t =>
        simp only []
        rw [ih]
        simp [intermediate_transforms, List.takeWhile_cons, hw, hc]
      | none =>
        simp only []
        rw [ih]
        simp [intermediate_transforms, List.takeWhile_cons, hw, hc]

/-- C23: for a body with at most one CanvasItem ancestor, of invertible local transform,
between it and its world node, and every transform `W`, `get_box2dworld_transform()` called
right after `set_box2dworld_transform(W)` returns `W`; and for a body with no CanvasItem
ancestor below the world node `set_box2dworld_transform(W)` sets the local transform to
`W`. -/
theorem get_after_set_returns_argument (env : Env) (me : Box2DPhysicsBody) (W : Transform2D)
    (hchain : intermediate_transforms me.world_node me.parents = [] ∨
      ∃ P, intermediate_transforms me.world_node me.parents = [P] ∧
        P.basis_determinant ≠ 0) :
    get_box2dworld_transform (set_box2dworld_transform env W me).1 = W ∧
    (intermediate_transforms me.world_node me.parents = [] →
      (set_box2dworld_transform env W me).1.transform = W) := by
  have hf := set_transform_frame env
    (fold_back Transform2D.identity (set_walk me.world_node me.parents [W])) me
  have hget : get_box2dworld_transform (set_box2dworld_transform env W me).1 =
      ancestors_product (intermediate_transforms me.world_node me.parents)
        (fold_back Transform2D.identity (set_walk me.world_node me.parents [W])) := by
    unfold get_box2dworld_transform set_box2dworld_transform
    rw [hf.1, hf.2.1, hf.2.2.1, get_walk_eq, fold_back_eq, Transform2D.identity_mul]
  have hdirect : intermediate_transforms me.world_node me.parents = [] →
      (set_box2dworld_transform env W me).1.transform = W := by
    intro he
    rw [set_box2dworld_transform_transform, set_walk_eq, he]
    exact Transform2D.identity_mul W
  refine ⟨?_, hdirect⟩
  rw [hget, set_walk_eq]
  rcases hchain with he | ⟨P, hP, hdet⟩
  · rw [he]
    exact Transform2D.identity_mul W
  · rw [hP]
    show P * (Transform2D.identity * P.affine_inverse * W) = W
    rw [Transform2D.identity_mul, ← Transform2D.mul_assoc, Transform2D.mul_affine_inverse P hdet,
      Transform2D.identity_mul]

/-- C23 at a body under one translated ancestor: reading the composed transform back after
setting it to a translation by `(5, 5)` returns that translation. -/
theorem get_after_set_returns_argument_witness :
    (intermediate_transforms one_ancestor_body.world_node one_ancestor_body.parents = [] ∨
      ∃ P, intermediate_transforms one_ancestor_body.world_node one_ancestor_body.parents = [P] ∧
        P.basis_determinant ≠ 0) ∧
    get_box2dworld_transform
        (set_box2dworld_transform plain_env ⟨⟨1, 0⟩, ⟨0, 1⟩, ⟨5, 5⟩⟩ one_ancestor_body).1
      = ⟨⟨1, 0⟩, ⟨0, 1⟩, ⟨5, 5⟩⟩ := by
  have hchain : intermediate_transforms one_ancestor_body.world_node one_ancestor_body.parents
        = [] ∨
      ∃ P, intermediate_transforms one_ancestor_body.world_node one_ancestor_body.parents = [P] ∧
        P.basis_determinant ≠ 0 := by
    refine Or.inr ⟨⟨⟨1, 0⟩, ⟨0, 1⟩, ⟨1, 0⟩⟩, ?_, ?_⟩
    · simp [intermediate_transforms, one_ancestor_body, fresh_body, List.takeWhile_cons]
    · simp [Transform2D.basis_determinant]
  exact ⟨hchain, (get_after_set_returns_argument plain_env one_ancestor_body _ hchain).1⟩

/-! ## Insert followed by remove -/

/-- What `remove` does to the count and the live points; shared by the results below. -/
theorem remove_points (maxPoints : Nat) (m : ContactBufferManifold)
    (p_idx : Int) (hlen : m.points.length = maxPoints) (hcount : m.count ≤ maxPoints) :
    (0 ≤ p_idx ∧ p_idx < m.count →
      (m.remove maxPoints p_idx).count = m.count - 1 ∧
      (∀ i : Nat, (i : Int) < p_idx → (m.remove maxPoints p_idx).point i = m.point i) ∧
      (∀ i : Nat, p_idx ≤ (i : Int) → (i : Int) < m.count - 1 →
        (m.remove maxPoints p_idx).point i = m.point (i + 1))) ∧
    (¬ (0 ≤ p_idx ∧ p_idx < m.count) → m.remove maxPoints p_idx = m) := by
  constructor
  · rintro ⟨h0, h1⟩
    have hg : ¬ (p_idx < 0 ∨ p_idx ≥ m.count ∨ p_idx ≥ maxPoints) := by omega
    unfold ContactBufferManifold.remove
    rw [if_neg hg]
    by_cases hs : p_idx < m.count - 1
    · simp only [if_pos hs, ContactBufferManifold.point]
      have hlast : (m.count - 1).toNat < (ContactBufferManifold.shift_down
          (m.count - 1 - p_idx).toNat p_idx.toNat m.points).length := by
        rw [ContactBufferManifold.shift_down_length]; omega
      have hfit : p_idx.toNat + (m.count - 1 - p_idx).toNat < m.points.length := by omega
      refine ⟨trivial, ?_, ?_⟩
      · intro i hi
        rw [getD_set_of_lt _ _ _ _ _ hlast, if_neg (by omega),
          ContactBufferManifold.shift_down_getD _ _ _ hfit, if_neg (by omega)]
      · intro i hi1 hi2
        rw [getD_set_of_lt _ _ _ _ _ hlast, if_neg (by omega),
          ContactBufferManifold.shift_down_getD _ _ _ hfit, if_pos (by omega)]
    · simp only [if_neg hs]
      refine ⟨trivial, fun i _ => rfl, ?_⟩
      intro i hi1 hi2
      omega
  · intro h
    have hg : p_idx < 0 ∨ p_idx ≥ m.count ∨ p_idx ≥ maxPoints := by omega
    unfold ContactBufferManifold.remove
    rw [if_pos hg]

/-- What `insert` does to the count and the live points; shared by the results below. -/
theorem insert_points (maxPoints : Nat) (m : ContactBufferManifold)
    (p_point : Box2DContactPoint) (p_idx : Int) (hlen : m.points.length = maxPoints) :
    (m.count < maxPoints → 0 ≤ p_idx → p_idx ≤ m.count →
      (m.insert maxPoints p_point p_idx).count = m.count + 1 ∧
      (m.insert maxPoints p_point p_idx).point p_idx.toNat = p_point ∧
      (∀ i : Nat, (i : Int) < p_idx → (m.insert maxPoints p_point p_idx).point i = m.point i) ∧
      (∀ i : Nat, p_idx ≤ (i : Int) → (i : Int) < m.count →
        (m.insert maxPoints p_point p_idx).point (i + 1) = m.point i)) ∧
    ((maxPoints : Int) ≤ m.count ∨ p_idx < 0 ∨ p_idx > m.count →
      m.insert maxPoints p_point p_idx = m) := by
  constructor
  · intro hc h0 h1
    have hg1 : ¬ (m.count + 1 > maxPoints) := by omega
    have hg2 : ¬ (p_idx < 0 ∨ p_idx ≥ maxPoints) := by omega
    have hg3 : ¬ (p_idx > m.count) := by omega
    unfold ContactBufferManifold.insert
    rw [if_neg hg1, if_neg hg2, if_neg hg3]
    simp only [ContactBufferManifold.point]
    by_cases hs : p_idx < m.count
    · rw [if_pos hs]
      have hl : p_idx.toNat < (ContactBufferManifold.shift_up p_idx.toNat m.count.toNat
          m.points).length := by
        rw [ContactBufferManifold.shift_up_length]; omega
      have hfit : m.count.toNat < m.points.length := by omega
      refine ⟨trivial, ?_, ?_, ?_⟩
      · rw [getD_set_of_lt _ _ _ _ _ hl, if_pos rfl]
      · intro i hi
        rw [getD_set_of_lt _ _ _ _ _ hl, if_neg (by omega),
          ContactBufferManifold.shift_up_getD _ _ _ hfit, if_neg (by omega)]
      · intro i hi1 hi2
        rw [getD_set_of_lt _ _ _ _ _ hl, if_neg (by omega),
          ContactBufferManifold.shift_up_getD _ _ _ hfit, if_pos (by omega)]
        rfl
    · rw [if_neg hs]
      have hl : p_idx.toNat < m.points.length := by omega
      refine ⟨trivial, ?_, ?_, ?_⟩
      · rw [getD_set_of_lt _ _ _ _ _ hl, if_pos rfl]
      · intro i hi
        rw [getD_set_of_lt _ _ _ _ _ hl, if_neg (by omega)]
      · intro i hi1 hi2
        omega
  · intro h
    unfold ContactBufferManifold.insert
    by_cases hg1 : m.count + 1 > maxPoints
    · rw [if_pos hg1]
    · rw [if_neg hg1]
      by_cases hg2 : p_idx < 0 ∨ p_idx ≥ maxPoints
      · rw [if_pos hg2]
      · rw [if_neg hg2]
        have hg3 : p_idx > m.count := by omega
        rw [if_pos hg3]

theorem insert_length (maxPoints : Nat) (m : ContactBufferManifold)
    (p_point : Box2DContactPoint) (p_idx : Int) :
    (m.insert maxPoints p_point p_idx).points.length = m.points.length := by
  unfold ContactBufferManifold.insert
  split_ifs <;>
    simp only [List.length_set, ContactBufferManifold.shift_up_length]

/-- C24: on a manifold whose array has `b2_maxManifoldPoints` slots and with
`count < b2_maxManifoldPoints`, for every point `p` and index `idx` with
`0 <= idx <= count`, `insert(p, idx)` followed by `remove(idx)` restores the original count
and the original live points `points[0 .. count)`. -/
theorem insert_then_remove_restores (maxPoints : Nat) (m : ContactBufferManifold)
    (p_point : Box2DContactPoint) (p_idx : Int) (hlen : m.points.length = maxPoints)
    (hc : m.count < maxPoints) (h0 : 0 ≤ p_idx) (h1 : p_idx ≤ m.count) :
    ((m.insert maxPoints p_point p_idx).remove maxPoints p_idx).count = m.count ∧
    ∀ i : Nat, (i : Int) < m.count →
      ((m.insert maxPoints p_point p_idx).remove maxPoints p_idx).point i = m.point i := by
  obtain ⟨i1, _, i3, i4⟩ := (insert_points maxPoints m p_point p_idx hlen).1 hc h0 h1
  have hlen1 : (m.insert maxPoints p_point p_idx).points.length = maxPoints := by
    rw [insert_length, hlen]
  have hcount1 : (m.insert maxPoints p_point p_idx).count ≤ maxPoints := by
    rw [i1]; omega
  obtain ⟨r1, r2, r3⟩ := (remove_points maxPoints (m.insert maxPoints p_point p_idx) p_idx
    hlen1 hcount1).1 ⟨h0, by rw [i1]; omega⟩
  refine ⟨by rw [r1, i1]; omega, ?_⟩
  intro i hi
  by_cases hlt : (i : Int) < p_idx
  · rw [r2 i hlt, i3 i hlt]
  · have hge : p_idx ≤ (i : Int) := by omega
    rw [r3 i hge (by rw [i1]; omega), i4 i hge hi]

/-- C24 at a one-point manifold: inserting a point at index 0 and removing index 0 again
leaves one point, the original one. -/
theorem insert_then_remove_restores_witness :
    one_point_manifold.points.length = 2 ∧
    one_point_manifold.count < (2 : Nat) ∧
    ((one_point_manifold.insert 2 (point_with_id 7) 0).remove 2 0).count = 1 ∧
    ((one_point_manifold.insert 2 (point_with_id 7) 0).remove 2 0).point 0
      = point_with_id 10 := by
  have h := insert_then_remove_restores 2 one_point_manifold (point_with_id 7) 0 rfl
    (by decide) (by decide) (by decide)
  exact ⟨rfl, by decide, h.1, h.2 0 (by decide)⟩

/-- C28, evaluated on a kernel with two points per manifold: starting from the
default-constructed manifold, `insert` of a point with id 5 at index 0 followed by
`remove(0)` succeeds (the count goes to 1 and back to 0), and the vacated slot `points[0]`,
now outside the live range, still carries id 5: removing the last live point skips the
statement that resets the id. -/
theorem vacated_last_slot_keeps_its_id :
    ((ContactBufferManifold.init 2).insert 2 (point_with_id 5) 0).count = 1 ∧
    (((ContactBufferManifold.init 2).insert 2 (point_with_id 5) 0).remove 2 0).count = 0 ∧
    ((((ContactBufferManifold.init 2).insert 2 (point_with_id 5) 0).remove 2 0).point 0).id
      = 5 ∧
    (run_manifold_calls 2 (ContactBufferManifold.init 2)
      [.insert (point_with_id 5) 0, .remove 0]).count = 0 ∧
    ((run_manifold_calls 2 (ContactBufferManifold.init 2)
      [.insert (point_with_id 5) 0, .remove 0]).point 0).id ≠ -1 := by
  decide

/-! ## Exception bookkeeping at deletion and under repetition -/

/-- C25, evaluated after body 0 added an exception with body 1 and then handled
`NOTIFICATION_PREDELETE`: body 1 still records body 0 in its `filtering_me` set, because the
handler erases the deleted body only from the `filtered` sets of the bodies in its own
`filtering_me`, never from the `filtering_me` sets of the bodies it filtered. -/
theorem predelete_leaves_reference_in_filtering_me :
    1 ∈ (excepting_scene.nodes 0).filtered ∧
    0 ∈ (excepting_scene.nodes 1).filtering_me ∧
    0 ∈ ((_notification plain_env 0 excepting_scene .PREDELETE).nodes 1).filtering_me ∧
    0 ∉ ((_notification plain_env 0 excepting_scene .PREDELETE).nodes 1).filtered := by
  decide

theorem set_insert_of_mem (x : Nat) (l : List Nat) (h : x ∈ l) : set_insert x l = l := by
  unfold set_insert
  rw [if_pos h]

theorem set_insert_idem (x : Nat) (l : List Nat) :
    set_insert x (set_insert x l) = set_insert x l :=
  set_insert_of_mem x _ ((mem_set_insert x x l).2 (Or.inl rfl))

theorem set_erase_insert (x : Nat) (l : List Nat) (h : x ∉ l) :
    set_erase x (set_insert x l) = l := by
  unfold set_insert set_erase
  rw [if_neg h]
  exact List.erase_orderedInsert_of_not_mem h

/-- C26: starting from bodies with empty sets, after every sequence of
`add_collision_exception_with` and `remove_collision_exception_with` calls (with any
arguments), `b` is in the `filtered` set of `a` exactly when `a` is in the `filtering_me` set
of `b`; on the scene reached, adding the same exception twice leaves every `filtered` and
`filtering_me` set as adding it once does; and adding a pair that was not present and then
removing it restores every `filtered` and `filtering_me` set. -/
theorem filtered_and_filtering_me_are_inverse (s : Scene) (hs : no_exceptions s)
    (calls : List ExceptionCall) (a b : Nat) :
    (b ∈ ((run_exception_calls s calls).nodes a).filtered ↔
      a ∈ ((run_exception_calls s calls).nodes b).filtering_me) ∧
    (∀ (p_node : NodeArg) (c : Nat),
      ((add_collision_exception_with a p_node
          (add_collision_exception_with a p_node (run_exception_calls s calls))).nodes c).filtered
        = ((add_collision_exception_with a p_node
          (run_exception_calls s calls)).nodes c).filtered ∧
      ((add_collision_exception_with a p_node
          (add_collision_exception_with a p_node
            (run_exception_calls s calls))).nodes c).filtering_me
        = ((add_collision_exception_with a p_node
          (run_exception_calls s calls)).nodes c).filtering_me) ∧
    (b ∉ ((run_exception_calls s calls).nodes a).filtered →
      ∀ c : Nat,
        ((remove_collision_exception_with a (.body b)
            (add_collision_exception_with a (.body b)
              (run_exception_calls s calls))).nodes c).filtered
          = ((run_exception_calls s calls).nodes c).filtered ∧
        ((remove_collision_exception_with a (.body b)
            (add_collision_exception_with a (.body b)
              (run_exception_calls s calls))).nodes c).filtering_me
          = ((run_exception_calls s calls).nodes c).filtering_me) := by
  have hm := run_exceptions_mirrored calls s (mirrored_of_no_exceptions s hs)
  generalize run_exception_calls s calls = r at hm
  refine ⟨hm.2 a b, ?_, ?_⟩
  · intro p_node c
    cases p_node with
    | null => exact ⟨rfl, rfl⟩
    | other id => exact ⟨rfl, rfl⟩
    | body x =>
      constructor
      · rw [add_filtered, add_filtered]
        by_cases hc : c = a
        · rw [if_pos hc, if_pos hc, set_insert_idem]
        · rw [if_neg hc, if_neg hc]
      · rw [add_filtering_me, add_filtering_me]
        by_cases hc : c = x
        · rw [if_pos hc, if_pos hc, set_insert_idem]
        · rw [if_neg hc, if_neg hc]
  · intro hnot c
    have hnot2 : a ∉ (r.nodes b).filtering_me := fun h => hnot ((hm.2 a b).2 h)
    constructor
    · rw [remove_filtered, add_filtered]
      by_cases hc : c = a
      · subst hc
        rw [if_pos rfl, if_pos rfl, set_erase_insert _ _ hnot]
      · rw [if_neg hc, if_neg hc]
    · rw [remove_filtering_me, add_filtering_me]
      by_cases hc : c = b
      · subst hc
        rw [if_pos rfl, if_pos rfl, set_erase_insert _ _ hnot2]
      · rw [if_neg hc, if_neg hc]

/-- C26 at two bodies without exceptions: after body 0 adds body 1 and removes it again,
the `filtered` set of body 0 and the `filtering_me` set of body 1 are empty as before. -/
theorem filtered_and_filtering_me_are_inverse_witness :
    no_exceptions dormant_scene ∧
    ((remove_collision_exception_with 0 (.body 1)
        (add_collision_exception_with 0 (.body 1)
          (run_exception_calls dormant_scene []))).nodes 0).filtered = [] ∧
    ((remove_collision_exception_with 0 (.body 1)
        (add_collision_exception_with 0 (.body 1)
          (run_exception_calls dormant_scene []))).nodes 1).filtering_me = [] := by
  have h := (filtered_and_filtering_me_are_inverse dormant_scene (fun _ => ⟨rfl, rfl⟩) [] 0
    1).2.2 (by decide)
  exact ⟨fun _ => ⟨rfl, rfl⟩, (h 0).1, (h 1).2⟩

/-! ## Kernel handle and body sets -/

theorem registered_congr (s t : Scene) (self : Nat) (hw : t.worlds = s.worlds)
    (hb : (t.nodes self).body = (s.nodes self).body)
    (hn : (t.nodes self).world_node = (s.nodes self).world_node) (h : registered s self) :
    registered t self := by
  unfold registered has_kernel at *
  rw [hw, hb, hn]
  exact h

theorem destroy_observed (self : Nat) (s : Scene) (b : b2Body) (w : Nat)
    (hb : (s.nodes self).body = some b) (hw : (s.nodes self).world_node = some w)
    (hk : has_kernel s w) :
    ((destroy_b2Body self s).2.nodes self).body = none ∧
    ((destroy_b2Body self s).2.nodes self).world_node = none ∧
    ((destroy_b2Body self s).2.worlds w).bodies = set_erase self (s.worlds w).bodies ∧
    ∀ w1, w1 ≠ w → (destroy_b2Body self s).2.worlds w1 = s.worlds w1 := by
  unfold has_kernel at hk
  obtain ⟨kw, hkw⟩ := Option.isSome_iff_exists.mp hk
  unfold destroy_b2Body
  simp only [hb, hw, hkw]
  refine ⟨by simp, by simp, by simp, ?_⟩
  intro w1 hne
  simp [Function.update_noteq hne]

theorem destroy_registered (self : Nat) (s : Scene) (h : registered s self) :
    registered (destroy_b2Body self s).2 self ∧
    ((destroy_b2Body self s).2.nodes self).body = none := by
  cases hb : (s.nodes self).body with
  | none =>
    rw [destroy_without_body self s hb]
    exact ⟨h, hb⟩
  | some b =>
    obtain ⟨w, hw, hk, hin⟩ := h.1 b hb
    obtain ⟨d1, d2, d3, d4⟩ := destroy_observed self s b w hb hw hk
    have hout : ∀ w1, self ∉ ((destroy_b2Body self s).2.worlds w1).bodies := by
      intro w1 hmem
      by_cases e : w1 = w
      · subst e
        rw [d3] at hmem
        exact not_mem_set_erase_self self _ (h.2.2 w1) hmem
      · rw [d4 w1 e] at hmem
        have := (h.2.1 w1 hmem).2
        rw [hw] at this
        exact e (Option.some.inj this).symm
    refine ⟨⟨?_, ?_, ?_⟩, d1⟩
    · intro b1 hb1
      rw [d1] at hb1
      cases hb1
    · intro w1 hmem
      exact absurd hmem (hout w1)
    · intro w1
      by_cases e : w1 = w
      · subst e
        rw [d3]
        exact nodup_set_erase _ _ (h.2.2 w1)
      · rw [d4 w1 e]
        exact h.2.2 w1

theorem create_registered (env : Env) (self : Nat) (s : Scene) (h : registered s self) :
    registered (create_b2Body env self s).2 self := by
  by_cases hc : (s.nodes self).world_node.isSome = true ∧ (s.nodes self).body = none ∧
      ∀ w, (s.nodes self).world_node = some w → has_kernel s w
  · obtain ⟨hws, hb, hk⟩ := hc
    obtain ⟨w, hw⟩ := Option.isSome_iff_exists.mp hws
    obtain ⟨⟨b1, a1, _⟩, a2, a3, a4⟩ := attach_observed env self s w hw hb (hk w hw)
    refine ⟨?_, ?_, ?_⟩
    · intro b2 _
      refine ⟨w, a2, create_has_kernel env self s w (hk w hw), ?_⟩
      rw [a3]
      exact (mem_set_insert self self _).2 (Or.inl rfl)
    · intro w1 hmem
      by_cases e : w1 = w
      · subst e
        exact ⟨by rw [a1]; rfl, a2⟩
      · rw [a4 w1 e] at hmem
        have := (h.2.1 w1 hmem).1
        rw [hb] at this
        cases this
    · intro w1
      by_cases e : w1 = w
      · subst e
        rw [a3]
        exact nodup_set_insert _ _ (h.2.2 w1)
      · rw [a4 w1 e]
        exact h.2.2 w1
  · rw [create_refused env self s hc]
    exact h

theorem retarget_registered (self : Nat) (s : Scene) (new_world : Option Nat)
    (h : registered s self) (hb : (s.nodes self).body = none) :
    registered (s.modify self (fun me => { me with world_node := new_world })) self ∧
    ((s.modify self (fun me => { me with world_node := new_world })).nodes self).body = none := by
  have hb' : ((s.modify self (fun me => { me with world_node := new_world })).nodes self).body
      = none := by rw [modify_nodes_self]; exact hb
  refine ⟨⟨?_, ?_, h.2.2⟩, hb'⟩
  · intro b1 hb1
    rw [hb'] at hb1
    cases hb1
  · intro w hmem
    have := (h.2.1 w hmem).1
    rw [hb] at this
    cases this

theorem guarded_destroy_registered (self : Nat) (s : Scene) (h : registered s self) :
    registered (if (s.nodes self).world_node.isSome then (destroy_b2Body self s).2 else s)
      self ∧
    ((if (s.nodes self).world_node.isSome then (destroy_b2Body self s).2 else s).nodes
      self).body = none := by
  by_cases hw : (s.nodes self).world_node.isSome = true
  · rw [if_pos hw]
    exact destroy_registered self s h
  · rw [if_neg hw]
    refine ⟨h, ?_⟩
    cases hb : (s.nodes self).body with
    | none => rfl
    | some b =>
      obtain ⟨w, hw1, _⟩ := h.1 b hb
      rw [hw1] at hw
      exact absurd rfl hw

theorem notification_registered (env : Env) (self : Nat) (s : Scene) (ev : Notification)
    (h : registered s self) : registered (_notification env self s ev) self := by
  cases ev with
  | PREDELETE =>
    have h2 : registered
        { worlds := s.worlds
          nodes := erase_from_filterers self s.nodes (s.nodes self).filtering_me
          joint_calls := s.joint_calls ++ notify_joints_predelete self (s.nodes self).joints }
        self := by
      have hk := erase_from_filterers_keeps self (s.nodes self).filtering_me s.nodes self
      exact registered_congr s _ self rfl hk.1 hk.2 h
    unfold _notification
    exact (destroy_registered self _ h2).1
  | ENTER_TREE new_world debug_hint =>
    have h1 : registered (s.modify self
        (fun me => { me with last_valid_xform := get_box2dworld_transform me })) self :=
      registered_congr s _ self rfl (by rw [modify_nodes_self]) (by rw [modify_nodes_self]) h
    generalize hs1 : s.modify self
        (fun me => { me with last_valid_xform := get_box2dworld_transform me }) = s1 at h1
    have key : ∀ s4 : Scene, registered s4 self →
        registered (if debug_hint then s4.modify self
          (fun me => { me with process_internal := true }) else s4) self := by
      intro s4 h4
      cases debug_hint with
      | false => exact h4
      | true =>
        simp only [if_true]
        exact registered_congr s4 _ self rfl (by rw [modify_nodes_self])
          (by rw [modify_nodes_self]) h4
    unfold _notification
    simp only [hs1]
    apply key
    by_cases hne : new_world ≠ (s1.nodes self).world_node
    · rw [if_pos hne]
      obtain ⟨g1, g2⟩ := guarded_destroy_registered self s1 h1
      obtain ⟨r1, _⟩ := retarget_registered self _ new_world g1 g2
      by_cases hn : new_world.isSome = true
      · rw [if_pos hn]
        exact create_registered env self _ r1
      · rw [if_neg hn]
        exact r1
    · rw [if_neg hne]
      exact h1
  | EXIT_TREE =>
    have h1 : registered (s.modify self (fun me => { me with process_internal := false }))
        self :=
      registered_congr s _ self rfl (by rw [modify_nodes_self]) (by rw [modify_nodes_self]) h
    unfold _notification
    exact (guarded_destroy_registered self _ h1).1

theorem run_lifecycle_registered (env : Env) (self : Nat) (calls : List LifecycleCall) :
    ∀ s : Scene, registered s self → registered (run_lifecycle env self s calls) self := by
  induction calls with
  | nil => intro s h; exact h
  | cons c rest ih =>
    intro s h
    apply ih
    cases c with
    | create_b2Body => exact create_registered env self s h
    | destroy_b2Body => exact (destroy_registered self s h).1
    | notify ev => exact notification_registered env self s ev h

/-- C27: for a body that starts without kernel body and listed in no world's body set (the
body sets listing no body twice), after every sequence of `create_b2Body`, `destroy_b2Body`
and `ENTER_TREE` / `EXIT_TREE` / `PREDELETE` notifications the kernel-body handle is non-null
if and only if the body is a member of some world's `bodies` set; a world whose set lists the
body is the body's non-null `world_node`; and the body is never a member of two worlds' sets
at once. -/
theorem handle_matches_body_set_membership (env : Env) (self : Nat) (s : Scene)
    (calls : List LifecycleCall) (hb : (s.nodes self).body = none)
    (hout : ∀ w, self ∉ (s.worlds w).bodies) (hnd : ∀ w, (s.worlds w).bodies.Nodup) :
    (((run_lifecycle env self s calls).nodes self).body.isSome = true ↔
      ∃ w, self ∈ ((run_lifecycle env self s calls).worlds w).bodies) ∧
    (∀ w, self ∈ ((run_lifecycle env self s calls).worlds w).bodies →
      ((run_lifecycle env self s calls).nodes self).world_node = some w) ∧
    (∀ w1 w2, self ∈ ((run_lifecycle env self s calls).worlds w1).bodies →
      self ∈ ((run_lifecycle env self s calls).worlds w2).bodies → w1 = w2) := by
  have h0 : registered s self := by
    refine ⟨?_, ?_, hnd⟩
    · intro b hb1
      rw [hb] at hb1
      cases hb1
    · intro w hmem
      exact absurd hmem (hout w)
  have h := run_lifecycle_registered env self calls s h0
  generalize run_lifecycle env self s calls = r at h
  refine ⟨⟨?_, ?_⟩, fun w hmem => (h.2.1 w hmem).2, ?_⟩
  · intro hsome
    obtain ⟨b, hb1⟩ := Option.isSome_iff_exists.mp hsome
    obtain ⟨w, _, _, hin⟩ := h.1 b hb1
    exact ⟨w, hin⟩
  · rintro ⟨w, hin⟩
    exact (h.2.1 w hin).1
  · intro w1 w2 h1 h2
    have e1 := (h.2.1 w1 h1).2
    have e2 := (h.2.1 w2 h2).2
    rw [e1] at e2
    exact Option.some.inj e2

/-- C27 at a fresh body that enters the tree under world 1, is moved under world 2 and
leaves the tree: membership and handle agree at the end. -/
theorem handle_matches_body_set_membership_witness :
    (live_scene.nodes 0).body = none ∧
    (((run_lifecycle plain_env 0 live_scene
        [.notify (.ENTER_TREE (some 1) false), .notify (.ENTER_TREE (some 2) false),
          .notify .EXIT_TREE]).nodes 0).body.isSome = true ↔
      ∃ w, 0 ∈ ((run_lifecycle plain_env 0 live_scene
        [.notify (.ENTER_TREE (some 1) false), .notify (.ENTER_TREE (some 2) false),
          .notify .EXIT_TREE]).worlds w).bodies) :=
  ⟨rfl,
    (handle_matches_body_set_membership plain_env 0 live_scene _ rfl
      (fun _ h => by cases h) (fun _ => List.nodup_nil)).1⟩

/-! ## Entering the tree under another root -/

end GodotBox2D
